import Mathlib

/-!
Shallow embedding of `cuffnote/mortgages.py`: the `Mortgage` base class, the
`ExtraMonthlyPrincipal` subclass, and the numpy-financial routines they call
(`pmt`, `ipmt`, `ppmt`), with Python floats modelled as exact rationals and
`round(x, 2)` modelled as decimal rounding to the nearest cent.
-/

namespace Cuffnote

/-- `round(x, 2)`: round to 2 decimal places (nearest cent). -/
def round2 (q : ℚ) : ℚ := (round (q * 100) : ℤ) / 100

/-- `round(x, 3)`: round to 3 decimal places. -/
def round3 (q : ℚ) : ℚ := (round (q * 1000) : ℤ) / 1000

/-- `numpy_financial.pmt(rate, nper, pv)` with `fv = 0`, `when = 'end'`:
`-(pv*(1+rate)^nper) / (((1+rate)^nper - 1)/rate)`, and `-(pv/nper)` when `rate = 0`. -/
def npf_pmt (rate : ℚ) (nper : ℕ) (pv : ℚ) : ℚ :=
  if rate = 0 then -(pv / nper)
  else -(pv * (1 + rate) ^ nper) / (((1 + rate) ^ nper - 1) / rate)

/-- `numpy_financial.fv(rate, nper, pmt, pv)` with `when = 'end'`. -/
def npf_fv (rate : ℚ) (nper : ℕ) (pmtv pv : ℚ) : ℚ :=
  if rate = 0 then -(pv + pmtv * nper)
  else -(pv * (1 + rate) ^ nper + pmtv * ((1 + rate) ^ nper - 1) / rate)

/-- `numpy_financial.ipmt(rate, per, nper, pv)`: interest portion of payment `per`,
computed as remaining balance after `per - 1` payments times the periodic rate. -/
def npf_ipmt (rate : ℚ) (per nper : ℕ) (pv : ℚ) : ℚ :=
  npf_fv rate (per - 1) (npf_pmt rate nper pv) pv * rate

/-- `numpy_financial.ppmt(rate, per, nper, pv)`: principal portion of payment `per`. -/
def npf_ppmt (rate : ℚ) (per nper : ℕ) (pv : ℚ) : ℚ :=
  npf_pmt rate nper pv - npf_ipmt rate per nper pv

/-- The `Mortgage` instance state: the six `__init__` arguments plus the derived
`__down_payment`, `__loan_amount` and the cached `__payment_range`.
Dates are modelled at month granularity as absolute month numbers
(`pd.date_range(start, periods, freq='MS')` steps one month per period). -/
structure Mortgage where
  purchase_price : ℚ
  down_payment_percent : ℚ
  interest_rate : ℚ
  start_date : ℕ
  years : ℕ
  num_yearly_pmts : ℕ
  down_payment : ℚ
  loan_amount : ℚ
  payment_range : List ℕ
  deriving Repr, DecidableEq

/-- `pd.date_range(start_date, periods, freq='MS')` as month numbers. -/
def date_range (start : ℕ) (periods : ℕ) : List ℕ :=
  (List.range periods).map (fun i => start + i)

/-- `Mortgage.__init__`: stores the arguments, derives down payment and loan
amount, and caches the payment range.  There is no validation. -/
def Mortgage.init (purchase_price down_payment_percent interest_rate : ℚ)
    (start_date : ℕ) (years num_yearly_payments : ℕ) : Mortgage :=
  let dp := purchase_price * down_payment_percent
  { purchase_price := purchase_price
    down_payment_percent := down_payment_percent
    interest_rate := interest_rate
    start_date := start_date
    years := years
    num_yearly_pmts := num_yearly_payments
    down_payment := dp
    loan_amount := purchase_price - dp
    payment_range := date_range start_date (years * num_yearly_payments) }

/-- `Mortgage.get_payment`: `round(-1 * npf.pmt(rate/m, years*m, loan_amount), 2)`. -/
def Mortgage.get_payment (m : Mortgage) : ℚ :=
  round2 (-1 * npf_pmt (m.interest_rate / m.num_yearly_pmts)
    (m.years * m.num_yearly_pmts) m.loan_amount)

def Mortgage.get_purchase_price (m : Mortgage) : ℚ := m.purchase_price

/-- `Mortgage.set_purchase_price`: recomputes down payment and loan amount. -/
def Mortgage.set_purchase_price (m : Mortgage) (pp : ℚ) : Mortgage :=
  let dp := pp * m.down_payment_percent
  { m with purchase_price := pp, down_payment := dp, loan_amount := pp - dp }

def Mortgage.get_down_payment_percent (m : Mortgage) : ℚ := m.down_payment_percent

/-- `Mortgage.set_down_payment_percent`: recomputes down payment and loan amount. -/
def Mortgage.set_down_payment_percent (m : Mortgage) (p : ℚ) : Mortgage :=
  let dp := m.purchase_price * p
  { m with down_payment_percent := p, down_payment := dp,
           loan_amount := m.purchase_price - dp }

def Mortgage.get_down_payment (m : Mortgage) : ℚ := m.down_payment

/-- `Mortgage.set_down_payment`: stores the absolute down payment, recomputes the
loan amount, and derives the percent as `round(down_payment / purchase_price, 3)`. -/
def Mortgage.set_down_payment (m : Mortgage) (d : ℚ) : Mortgage :=
  { m with down_payment := d, loan_amount := m.purchase_price - d,
           down_payment_percent := round3 (d / m.purchase_price) }

def Mortgage.get_interest_rate (m : Mortgage) : ℚ := m.interest_rate

def Mortgage.set_interest_rate (m : Mortgage) (r : ℚ) : Mortgage :=
  { m with interest_rate := r }

def Mortgage.get_years (m : Mortgage) : ℕ := m.years

/-- `Mortgage.set_years`: assigns `__years` only. -/
def Mortgage.set_years (m : Mortgage) (y : ℕ) : Mortgage :=
  { m with years := y }

def Mortgage.get_num_yearly_pmts (m : Mortgage) : ℕ := m.num_yearly_pmts

def Mortgage.set_num_yearly_pmts (m : Mortgage) (n : ℕ) : Mortgage :=
  { m with num_yearly_pmts := n }

def Mortgage.get_start_date (m : Mortgage) : ℕ := m.start_date

/-- `Mortgage.set_start_date`: assigns `__start_date` only. -/
def Mortgage.set_start_date (m : Mortgage) (d : ℕ) : Mortgage :=
  { m with start_date := d }

def Mortgage.get_loan_amount (m : Mortgage) : ℚ := m.loan_amount

/-- `Mortgage.get_payment_range`: rebuilds and re-caches the payment range from
the current terms, returning both the range and the updated instance state. -/
def Mortgage.get_payment_range (m : Mortgage) : List ℕ × Mortgage :=
  let pr := date_range m.start_date (m.years * m.num_yearly_pmts)
  (pr, { m with payment_range := pr })

/-- `Mortgage.get_payoff_date`: reads the last entry of the *cached*
`__payment_range` (no rebuild). -/
def Mortgage.get_payoff_date (m : Mortgage) : ℕ :=
  m.payment_range.getLast?.getD 0

def Mortgage.get_number_of_payments (m : Mortgage) : ℕ :=
  m.years * m.num_yearly_pmts

/-- One row of the standard amortization table (columns of
`Mortgage.get_amortization_table`). -/
structure SRow where
  period : ℕ
  payment_date : ℕ
  payment : ℚ
  principal_paid : ℚ
  interest_paid : ℚ
  begin_balance : ℚ
  end_balance : ℚ
  cum_principal : ℚ
  cum_interest : ℚ
  deriving Repr, DecidableEq

/-- `round2` applied to every monetary column of a standard row
(`atable.round(2)`). -/
def SRow.round2 (row : SRow) : SRow :=
  { row with
    payment := Cuffnote.round2 row.payment
    principal_paid := Cuffnote.round2 row.principal_paid
    interest_paid := Cuffnote.round2 row.interest_paid
    begin_balance := Cuffnote.round2 row.begin_balance
    end_balance := Cuffnote.round2 row.end_balance
    cum_principal := Cuffnote.round2 row.cum_principal
    cum_interest := Cuffnote.round2 row.cum_interest }

/-- `-1 * npf.ppmt(rate, i, nper, pv)`: the (positive) principal portion of
payment `i` in the standard table. -/
def princ_std (rate : ℚ) (nper : ℕ) (pv : ℚ) (i : ℕ) : ℚ :=
  -1 * npf_ppmt rate i nper pv

/-- `-1 * npf.ipmt(rate, i, nper, pv)`: the (positive) interest portion of
payment `i` in the standard table. -/
def int_std (rate : ℚ) (nper : ℕ) (pv : ℚ) (i : ℕ) : ℚ :=
  -1 * npf_ipmt rate i nper pv

/-- The iteratively built `Ending Balance` column:
`eb 0 = loan_amount`, `eb i = eb (i-1) - principal_paid i`. -/
def eb_std (rate : ℚ) (nper : ℕ) (pv : ℚ) : ℕ → ℚ
  | 0 => pv
  | i + 1 => eb_std rate nper pv i - princ_std rate nper pv (i + 1)

/-- `Cumulative Principal Paid` at period `i` (cumsum of the unrounded column). -/
def cum_princ_std (rate : ℚ) (nper : ℕ) (pv : ℚ) (i : ℕ) : ℚ :=
  ∑ j ∈ Finset.range i, princ_std rate nper pv (j + 1)

/-- `Cumulative Interest Paid` at period `i` (cumsum of the unrounded column). -/
def cum_int_std (rate : ℚ) (nper : ℕ) (pv : ℚ) (i : ℕ) : ℚ :=
  ∑ j ∈ Finset.range i, int_std rate nper pv (j + 1)

/-- `Mortgage.get_amortization_table`: one row per period `1..years*num_yearly_pmts`;
`Payment` is the rounded `get_payment`, per-period principal/interest come from the
closed-form `npf` functions on the unrounded payment, balances are built
iteratively, and the whole table is rounded to 2 decimals at the end. -/
def Mortgage.get_amortization_table (m : Mortgage) : List SRow :=
  let rate := m.interest_rate / m.num_yearly_pmts
  let nper := m.years * m.num_yearly_pmts
  let pv := m.loan_amount
  (List.range nper).map (fun k =>
    let i := k + 1
    SRow.round2
      { period := i
        payment_date := m.start_date + k
        payment := m.get_payment
        principal_paid := princ_std rate nper pv i
        interest_paid := int_std rate nper pv i
        begin_balance := eb_std rate nper pv k
        end_balance := eb_std rate nper pv i
        cum_principal := cum_princ_std rate nper pv i
        cum_interest := cum_int_std rate nper pv i })

/-- `Mortgage.get_total_principal_paid`: the last `Cumulative Principal Paid`
entry of the table, rounded. -/
def Mortgage.get_total_principal_paid (m : Mortgage) : ℚ :=
  round2 ((m.get_amortization_table.map SRow.cum_principal).getLast?.getD 0)

/-- `Mortgage.get_total_interest_paid`: the last `Cumulative Interest Paid`
entry of the table, rounded. -/
def Mortgage.get_total_interest_paid (m : Mortgage) : ℚ :=
  round2 ((m.get_amortization_table.map SRow.cum_interest).getLast?.getD 0)

/-- `ExtraMonthlyPrincipal` instance state: the copied-out base terms (rebuilt
through `Mortgage.__init__`) plus `__extra_principal`. -/
structure ExtraMonthlyPrincipal where
  toMortgage : Mortgage
  extra_principal : ℚ
  deriving Repr, DecidableEq

/-- `ExtraMonthlyPrincipal.__init__(mortgage, extra_principal)`. -/
def ExtraMonthlyPrincipal.init (m : Mortgage) (extra : ℚ) : ExtraMonthlyPrincipal :=
  { toMortgage := Mortgage.init m.get_purchase_price m.get_down_payment_percent
      m.get_interest_rate m.get_start_date m.get_years m.get_num_yearly_pmts
    extra_principal := extra }

def ExtraMonthlyPrincipal.get_extra_principal (e : ExtraMonthlyPrincipal) : ℚ :=
  e.extra_principal

def ExtraMonthlyPrincipal.set_extra_principal (e : ExtraMonthlyPrincipal) (x : ℚ) :
    ExtraMonthlyPrincipal :=
  { e with extra_principal := x }

/-- One row of the `ExtraMonthlyPrincipal` amortization table; `is_payoff`
records whether the row was produced by the loop's payoff branch. -/
structure XRow where
  period : ℕ
  payment_date : ℕ
  payment : ℚ
  principal_paid : ℚ
  interest_paid : ℚ
  extra : ℚ
  begin_balance : ℚ
  end_balance : ℚ
  cum_principal : ℚ
  cum_interest : ℚ
  is_payoff : Bool
  deriving Repr, DecidableEq

/-- `round2` applied to every monetary column of an extra-principal row. -/
def XRow.round2 (row : XRow) : XRow :=
  { row with
    payment := Cuffnote.round2 row.payment
    principal_paid := Cuffnote.round2 row.principal_paid
    interest_paid := Cuffnote.round2 row.interest_paid
    extra := Cuffnote.round2 row.extra
    begin_balance := Cuffnote.round2 row.begin_balance
    end_balance := Cuffnote.round2 row.end_balance
    cum_principal := Cuffnote.round2 row.cum_principal
    cum_interest := Cuffnote.round2 row.cum_interest }

/-- The `for i in range(2, n+1)` loop of
`ExtraMonthlyPrincipal.get_amortization_table`.  `rate` is the periodic rate,
`pay` the rounded scheduled payment, `extra_at` the pre-filled `Extra Principal`
column as a function of the payment date, `i`/`date` the current period and its
payment date, `prev` the previous (unrounded) ending balance.  The payoff
branch breaks once the rounded ending balance reaches 0. -/
def x_loop (rate pay : ℚ) (extra_at : ℕ → ℚ) :
    (fuel : ℕ) → (i : ℕ) → (date : ℕ) → (prev : ℚ) → List XRow
  | 0, _, _, _ => []
  | fuel + 1, i, date, prev =>
    if 0 < round2 prev ∧ prev ≤ pay then
      let payoff_pay := prev * (1 + rate)
      let intr := rate * prev
      let princ := payoff_pay - intr
      let eb := prev - princ
      let row : XRow :=
        { period := i, payment_date := date, payment := payoff_pay,
          principal_paid := princ, interest_paid := intr, extra := 0,
          begin_balance := prev, end_balance := eb,
          cum_principal := 0, cum_interest := 0, is_payoff := true }
      if round2 eb = 0 then [row]
      else row :: x_loop rate pay extra_at fuel (i + 1) (date + 1) eb
    else
      let intr := rate * prev
      let princ := pay - intr
      let eb := prev - princ - extra_at date
      let row : XRow :=
        { period := i, payment_date := date, payment := pay,
          principal_paid := princ, interest_paid := intr, extra := extra_at date,
          begin_balance := prev, end_balance := eb,
          cum_principal := 0, cum_interest := 0, is_payoff := false }
      row :: x_loop rate pay extra_at fuel (i + 1) (date + 1) eb

/-- Fill the cumulative columns of the kept rows:
`Cumulative Principal Paid` is the running sum of `Principal Paid + Extra
Principal`, `Cumulative Interest Paid` of `Interest Paid`. -/
def x_cumsum (accP accI : ℚ) : List XRow → List XRow
  | [] => []
  | row :: rest =>
    let accP := accP + row.principal_paid + row.extra
    let accI := accI + row.interest_paid
    { row with cum_principal := accP, cum_interest := accI } ::
      x_cumsum accP accI rest

/-- The pre-filled `Extra Principal` column as a function of the payment date:
the full recurring amount, or 0 for dates strictly before the optional
`extra_principal_start_date` (`atable.loc[atable['Payment Date'] <
extra_principal_start_date, 'Extra Principal'] = float(0)`). -/
def gated_extra (xtra : ℚ) (gate : Option ℕ) (date : ℕ) : ℚ :=
  match gate with
  | none => xtra
  | some g => if date < g then 0 else xtra

/-- Row 1 of the `ExtraMonthlyPrincipal` table: closed-form `npf` principal
and interest, the gated extra, beginning balance the loan amount,
`ending = beginning - principal - extra`. -/
def x_first_row (e : ExtraMonthlyPrincipal) (gate : Option ℕ) : XRow :=
  let m := e.toMortgage
  let rate := m.interest_rate / m.num_yearly_pmts
  let nper := m.years * m.num_yearly_pmts
  let pv := m.loan_amount
  { period := 1, payment_date := m.start_date, payment := m.get_payment,
    principal_paid := princ_std rate nper pv 1,
    interest_paid := int_std rate nper pv 1,
    extra := gated_extra e.extra_principal gate m.start_date,
    begin_balance := pv,
    end_balance := pv - princ_std rate nper pv 1
      - gated_extra e.extra_principal gate m.start_date,
    cum_principal := 0, cum_interest := 0, is_payoff := false }

/-- All rows generated before the negative-balance filter: row 1 followed by
the loop over periods `2..nper` (the loop stops early at the payoff break). -/
def x_generated (e : ExtraMonthlyPrincipal) (gate : Option ℕ) : List XRow :=
  let m := e.toMortgage
  x_first_row e gate ::
    x_loop (m.interest_rate / m.num_yearly_pmts) m.get_payment
      (gated_extra e.extra_principal gate)
      (m.years * m.num_yearly_pmts - 1) 2 (m.start_date + 1)
      (x_first_row e gate).end_balance

/-- `ExtraMonthlyPrincipal.get_amortization_table(extra_principal_start_date=None)`:
row 1 from the closed-form `npf` functions, rows 2.. from the loop, then the
rows whose rounded ending balance is negative (or never computed) are dropped,
the cumulative columns are computed over the kept rows, and everything is
rounded to 2 decimals. -/
def ExtraMonthlyPrincipal.get_amortization_table (e : ExtraMonthlyPrincipal)
    (extra_principal_start_date : Option ℕ := none) : List XRow :=
  if e.toMortgage.years * e.toMortgage.num_yearly_pmts = 0 then []
  else
    (x_cumsum 0 0 ((x_generated e extra_principal_start_date).filter
      (fun row => 0 ≤ round2 row.end_balance))).map XRow.round2

/-- Modelled from the spec: the `AnnualLumpPayment` class is not present in
`src/cuffnote/mortgages.py`; only `src/tests/test_02_annual_lump_payment.py`
references it.  Per spec §4.3, it wraps any amortizer exposing the
terms/extra-principal capability: a plain `Mortgage` base contributes an
inherited recurring extra principal of `0.0`, an `ExtraMonthlyPrincipal` base
contributes its own recurring amount, and the wrapper adds an annual lump
amount and its calendar month. -/
structure AnnualLumpPayment where
  toMortgage : Mortgage
  extra_principal : ℚ
  annual_payment : ℚ
  annual_payment_month : ℕ
  deriving Repr, DecidableEq

/-- Modelled from the spec: constructing a `AnnualLumpPayment` over a plain
`Mortgage` exposes an inherited recurring extra principal of `0.0`. -/
def AnnualLumpPayment.initFromMortgage (m : Mortgage) (amount : ℚ)
    (month : ℕ) : AnnualLumpPayment :=
  { toMortgage := m, extra_principal := 0, annual_payment := amount,
    annual_payment_month := month }

/-- Modelled from the spec: constructing a `AnnualLumpPayment` over an
`ExtraMonthlyPrincipal` passes the base layer's recurring extra-principal
amount through unchanged. -/
def AnnualLumpPayment.initFromExtra (e : ExtraMonthlyPrincipal) (amount : ℚ)
    (month : ℕ) : AnnualLumpPayment :=
  { toMortgage := e.toMortgage, extra_principal := e.extra_principal,
    annual_payment := amount, annual_payment_month := month }

def AnnualLumpPayment.get_extra_principal (a : AnnualLumpPayment) : ℚ :=
  a.extra_principal

def AnnualLumpPayment.get_annual_payment (a : AnnualLumpPayment) : ℚ :=
  a.annual_payment

/-- Validity of constructor arguments (spec §3/§7): positive purchase price,
down-payment fraction in `[0,1)`, non-negative rate, positive term, positive
payments-per-year. -/
def ValidTerms (purchase_price down_payment_percent interest_rate : ℚ)
    (years num_yearly_payments : ℕ) : Prop :=
  0 < purchase_price ∧ 0 ≤ down_payment_percent ∧ down_payment_percent < 1 ∧
    0 ≤ interest_rate ∧ 0 < years ∧ 0 < num_yearly_payments

instance ValidTerms.decidable (purchase_price down_payment_percent interest_rate : ℚ)
    (years num_yearly_payments : ℕ) :
    Decidable (ValidTerms purchase_price down_payment_percent interest_rate
      years num_yearly_payments) := by
  unfold ValidTerms; infer_instance

/-- `npf`'s remaining loan balance after `k` payments of the standard payment
(`npf._rbl`); the unrounded `Ending Balance` column is this sequence. -/
def rbl (rate : ℚ) (nper : ℕ) (pv : ℚ) (k : ℕ) : ℚ :=
  -(npf_fv rate k (npf_pmt rate nper pv) pv)

/-- The non-cumulative data of an `XRow` (everything `x_cumsum` leaves
untouched), used to transport row facts across the cumulative-sum pass. -/
structure XCore where
  period : ℕ
  payment_date : ℕ
  payment : ℚ
  principal_paid : ℚ
  interest_paid : ℚ
  extra : ℚ
  begin_balance : ℚ
  end_balance : ℚ
  is_payoff : Bool
  deriving Repr, DecidableEq

def XRow.core (r : XRow) : XCore :=
  { period := r.period, payment_date := r.payment_date, payment := r.payment,
    principal_paid := r.principal_paid, interest_paid := r.interest_paid,
    extra := r.extra, begin_balance := r.begin_balance,
    end_balance := r.end_balance, is_payoff := r.is_payoff }

/-! ### Rounding facts -/

theorem round2_intCast_div (z : ℤ) : round2 ((z : ℚ) / 100) = (z : ℚ) / 100 := by
  unfold round2
  rw [div_mul_cancel₀ _ (by norm_num : (100 : ℚ) ≠ 0), round_intCast]

theorem round2_idem (q : ℚ) : round2 (round2 q) = round2 q :=
  round2_intCast_div _

theorem abs_round2_sub (q : ℚ) : |round2 q - q| ≤ 1 / 200 := by
  unfold round2
  have h := abs_sub_round (q * 100)
  rw [abs_sub_comm] at h
  have heq : (round (q * 100) : ℚ) / 100 - q = ((round (q * 100) : ℚ) - q * 100) / 100 := by
    ring
  rw [heq, abs_div, abs_of_pos (by norm_num : (0 : ℚ) < 100)]
  linarith

theorem round2_mono {a b : ℚ} (h : a ≤ b) : round2 a ≤ round2 b := by
  unfold round2
  have h1 : round (a * 100) ≤ round (b * 100) := by
    rw [round_eq, round_eq]
    exact Int.floor_mono (by nlinarith)
  have h2 : ((round (a * 100) : ℤ) : ℚ) ≤ ((round (b * 100) : ℤ) : ℚ) := by
    exact_mod_cast h1
  linarith

theorem round2_zero : round2 0 = 0 := by
  unfold round2; norm_num

theorem round2_nonneg {q : ℚ} (h : 0 ≤ q) : 0 ≤ round2 q := by
  have := round2_mono h
  rwa [round2_zero] at this

theorem round2_neg_of_neg {q : ℚ} (h : round2 q < 0) : q < 0 := by
  by_contra hq
  exact absurd (round2_nonneg (not_lt.mp hq)) (not_le.mpr h)

theorem round2_sub3_bound (a b c : ℚ) :
    |round2 (a - b - c) - (round2 a - round2 b - round2 c)| ≤ 1 / 50 := by
  have h0 := abs_round2_sub (a - b - c)
  have h1 := abs_round2_sub a
  have h2 := abs_round2_sub b
  have h3 := abs_round2_sub c
  rw [abs_le] at h0 h1 h2 h3 ⊢
  constructor <;> [linarith; linarith]

/-! ### Annuity algebra: the closed-form `npf` columns telescope through the
remaining balance `rbl`. -/

theorem rbl_zero_pmts (rate : ℚ) (nper : ℕ) (pv : ℚ) : rbl rate nper pv 0 = pv := by
  unfold rbl npf_fv
  by_cases h : rate = 0 <;> simp [h]

theorem princ_std_step (rate : ℚ) (nper : ℕ) (pv : ℚ) (k : ℕ) :
    princ_std rate nper pv (k + 1) = rbl rate nper pv k - rbl rate nper pv (k + 1) := by
  unfold princ_std npf_ppmt npf_ipmt rbl npf_fv
  by_cases h : rate = 0
  · simp only [h, if_true, eq_self_iff_true]
    push_cast
    ring
  · simp only [h, if_false, if_neg h]
    have hpow : (1 + rate) ^ (k + 1) = (1 + rate) ^ k * (1 + rate) := by ring
    field_simp
    ring

theorem eb_std_eq_rbl (rate : ℚ) (nper : ℕ) (pv : ℚ) (i : ℕ) :
    eb_std rate nper pv i = rbl rate nper pv i := by
  induction i with
  | zero => rw [eb_std, rbl_zero_pmts]
  | succ k ih => rw [eb_std, ih, princ_std_step]; ring

theorem cum_princ_std_eq (rate : ℚ) (nper : ℕ) (pv : ℚ) (i : ℕ) :
    cum_princ_std rate nper pv i = pv - rbl rate nper pv i := by
  unfold cum_princ_std
  have : ∀ j ∈ Finset.range i, princ_std rate nper pv (j + 1) =
      rbl rate nper pv j - rbl rate nper pv (j + 1) :=
    fun j _ => princ_std_step rate nper pv j
  rw [Finset.sum_congr rfl this, Finset.sum_range_sub' (rbl rate nper pv) i,
    rbl_zero_pmts]

theorem rbl_nper_eq_zero {rate : ℚ} {nper : ℕ} (pv : ℚ) (hr : 0 ≤ rate)
    (hn : 0 < nper) : rbl rate nper pv nper = 0 := by
  unfold rbl npf_fv npf_pmt
  by_cases h : rate = 0
  · have : (nper : ℚ) ≠ 0 := Nat.cast_ne_zero.mpr hn.ne'
    simp only [h, if_true, eq_self_iff_true]
    field_simp
  · have hrpos : 0 < rate := lt_of_le_of_ne hr (Ne.symm h)
    have hlt : (1 : ℚ) < (1 + rate) ^ nper :=
      one_lt_pow₀ (by linarith) hn.ne'
    have hne : (1 + rate) ^ nper - 1 ≠ 0 := by linarith
    simp only [h, if_false, if_neg h]
    field_simp
    ring

/-- Evaluate `round2` at an explicit rational via floor bounds. -/
theorem round2_eq_of_bounds (q : ℚ) (z : ℤ) (h1 : (z : ℚ) ≤ q * 100 + 1 / 2)
    (h2 : q * 100 + 1 / 2 < z + 1) : round2 q = (z : ℚ) / 100 := by
  unfold round2
  rw [round_eq, Int.floor_eq_iff.mpr ⟨h1, h2⟩]

/-- Evaluate `round3` at an explicit rational via floor bounds. -/
theorem round3_eq_of_bounds (q : ℚ) (z : ℤ) (h1 : (z : ℚ) ≤ q * 1000 + 1 / 2)
    (h2 : q * 1000 + 1 / 2 < z + 1) : round3 q = (z : ℚ) / 1000 := by
  unfold round3
  rw [round_eq, Int.floor_eq_iff.mpr ⟨h1, h2⟩]

/-- The spec's canonical example loan: price 200000, 20% down, rate 3.375%,
30 years, monthly payments. -/
def canonical : Mortgage := Mortgage.init 200000 (1/5) (27/800) 0 30 12

theorem canonical_payment : canonical.get_payment = 70735 / 100 := by
  show round2 (-1 * npf_pmt ((27/800) / ((12:ℕ):ℚ)) (30*12) (200000 - 200000 * (1/5)))
      = 70735 / 100
  have h := round2_eq_of_bounds
    (-1 * npf_pmt ((27/800) / ((12:ℕ):ℚ)) (30*12) (200000 - 200000 * (1/5))) 70735
    (by rw [npf_pmt, if_neg (by norm_num)]; norm_num)
    (by rw [npf_pmt, if_neg (by norm_num)]; norm_num)
  rw [h]; norm_num

/-- C1, counterexample: on the spec's example loan (purchase 200000, 20% down,
rate 3.375%, 30 years, monthly) `get_payment` returns 707.35, which is not
within 0.01 of the claimed 706.70. -/
theorem get_payment_example_counterexample :
    canonical.get_payment = 70735 / 100 ∧
      ¬ |canonical.get_payment - 70670 / 100| ≤ 1 / 100 := by
  refine ⟨canonical_payment, ?_⟩
  rw [canonical_payment]
  have h13 : (70735 : ℚ) / 100 - 70670 / 100 = 13 / 20 := by norm_num
  rw [h13, not_le, abs_of_pos (by norm_num)]
  norm_num

/-- C1 (amended): for every valid loan `get_payment` returns the annuity
payment `L * r / (1 - (1+r)^-N)` rounded to 2 decimals (`L / N` when the rate
is 0); on the spec's example loan the value is 707.35 (not 706.70). -/
theorem get_payment_annuity_formula (pp dpp ir : ℚ) (sd years np : ℕ)
    (h : ValidTerms pp dpp ir years np) :
    (ir = 0 → (Mortgage.init pp dpp ir sd years np).get_payment
        = round2 ((pp - pp * dpp) / ((years * np : ℕ) : ℚ))) ∧
    (ir ≠ 0 → (Mortgage.init pp dpp ir sd years np).get_payment
        = round2 ((pp - pp * dpp) * (ir / np)
            / (1 - ((1 + ir / np) ^ (years * np))⁻¹))) ∧
    canonical.get_payment = 70735 / 100 := by
  obtain ⟨-, -, -, hir, hy, hnp⟩ := h
  have hnpQ : ((np : ℕ) : ℚ) ≠ 0 := Nat.cast_ne_zero.mpr hnp.ne'
  refine ⟨?_, ?_, canonical_payment⟩
  · intro h0
    show round2 (-1 * npf_pmt (ir / np) (years * np) (pp - pp * dpp)) = _
    rw [npf_pmt, if_pos (by rw [h0]; simp)]
    ring_nf
  · intro h0
    have hr : ir / (np : ℚ) ≠ 0 := div_ne_zero h0 hnpQ
    have hrpos : 0 < ir / (np : ℚ) := by
      have : 0 < ir := lt_of_le_of_ne hir (Ne.symm h0)
      positivity
    have hN : years * np ≠ 0 := Nat.mul_ne_zero hy.ne' hnp.ne'
    have hgt : (1 : ℚ) < (1 + ir / np) ^ (years * np) :=
      one_lt_pow₀ (by linarith) hN
    have ht0 : ((1 + ir / np : ℚ)) ^ (years * np) ≠ 0 := by positivity
    have ht1 : ((1 + ir / np : ℚ)) ^ (years * np) - 1 ≠ 0 := by linarith
    show round2 (-1 * npf_pmt (ir / np) (years * np) (pp - pp * dpp)) = _
    rw [npf_pmt, if_neg hr]
    congr 1
    generalize hT : ((1 + ir / np : ℚ)) ^ (years * np) = t at ht0 ht1
    rw [eq_comm]
    field_simp
    ring

/-- C1 witness: the amended theorem applied to the canonical loan. -/
theorem get_payment_annuity_formula_witness :
    ((27/800 : ℚ) = 0 → (Mortgage.init 200000 (1/5) (27/800) 0 30 12).get_payment
        = round2 ((200000 - 200000 * (1/5)) / ((30 * 12 : ℕ) : ℚ))) ∧
    ((27/800 : ℚ) ≠ 0 → (Mortgage.init 200000 (1/5) (27/800) 0 30 12).get_payment
        = round2 ((200000 - 200000 * (1/5)) * ((27/800) / ((12:ℕ):ℚ))
            / (1 - ((1 + (27/800) / ((12:ℕ):ℚ)) ^ (30 * 12))⁻¹))) ∧
    canonical.get_payment = 70735 / 100 :=
  get_payment_annuity_formula 200000 (1/5) (27/800) 0 30 12
    (by unfold ValidTerms; norm_num)

/-- The last element of a mapped range. -/
theorem getLast_map_range {α : Type*} (f : ℕ → α) (n : ℕ) (hn : 0 < n) :
    ((List.range n).map f).getLast? = some (f (n - 1)) := by
  obtain ⟨m, rfl⟩ := Nat.exists_eq_succ_of_ne_zero hn.ne'
  rw [List.range_succ, List.map_append]
  simp

theorem get_total_principal_paid_closed (pp dpp ir : ℚ) (sd years np : ℕ)
    (h : ValidTerms pp dpp ir years np) :
    (Mortgage.init pp dpp ir sd years np).get_total_principal_paid
      = round2 (pp - pp * dpp) := by
  obtain ⟨-, -, -, hir, hy, hnp⟩ := h
  have hN : 0 < years * np := Nat.mul_pos hy hnp
  have hr : (0 : ℚ) ≤ ir / np := div_nonneg hir (Nat.cast_nonneg np)
  have hlast : ((Mortgage.init pp dpp ir sd years np).get_amortization_table.map
      SRow.cum_principal).getLast? = some (round2 (cum_princ_std (ir / np)
        (years * np) (pp - pp * dpp) (years * np))) := by
    simp only [Mortgage.get_amortization_table, Mortgage.init, List.map_map]
    rw [getLast_map_range _ _ hN]
    simp only [Function.comp, SRow.round2]
    rw [Nat.sub_add_cancel hN]
  unfold Mortgage.get_total_principal_paid
  rw [hlast]
  simp only [Option.getD_some]
  rw [round2_idem, cum_princ_std_eq, rbl_nper_eq_zero _ hr hN, sub_zero]

/-- C2: for every valid loan, the total principal paid over the full standard
amortization table equals the loan amount (purchase price minus down payment)
within 0.01; it is exactly the loan amount rounded to the cent. -/
theorem get_total_principal_paid_eq_loan_amount (pp dpp ir : ℚ) (sd years np : ℕ)
    (h : ValidTerms pp dpp ir years np) :
    (Mortgage.init pp dpp ir sd years np).get_total_principal_paid
        = round2 (pp - pp * dpp) ∧
    |(Mortgage.init pp dpp ir sd years np).get_total_principal_paid
        - ((Mortgage.init pp dpp ir sd years np).purchase_price
          - (Mortgage.init pp dpp ir sd years np).down_payment)| ≤ 1 / 100 := by
  have hc := get_total_principal_paid_closed pp dpp ir sd years np h
  refine ⟨hc, ?_⟩
  show |_ - (pp - pp * dpp)| ≤ _
  rw [hc]
  have := abs_round2_sub (pp - pp * dpp)
  linarith

/-- C2 witness: the theorem applied to a concrete 1-year loan. -/
theorem get_total_principal_paid_eq_loan_amount_witness :
    (Mortgage.init 1250 (1/5) (12/100) 0 1 12).get_total_principal_paid
        = round2 (1250 - 1250 * (1/5)) ∧
    |(Mortgage.init 1250 (1/5) (12/100) 0 1 12).get_total_principal_paid
        - ((Mortgage.init 1250 (1/5) (12/100) 0 1 12).purchase_price
          - (Mortgage.init 1250 (1/5) (12/100) 0 1 12).down_payment)| ≤ 1 / 100 :=
  get_total_principal_paid_eq_loan_amount 1250 (1/5) (12/100) 0 1 12
    (by unfold ValidTerms; norm_num)

/-- C7: a lump-sum amortizer constructed over a plain `Mortgage` exposes an
inherited recurring extra-principal amount of exactly 0.0, and one constructed
over an `ExtraMonthlyPrincipal` with extra = 500 exposes 500 unchanged. -/
theorem annual_lump_extra_principal_inherited (m : Mortgage) (amount : ℚ)
    (month : ℕ) :
    (AnnualLumpPayment.initFromMortgage m amount month).get_extra_principal = 0 ∧
    (AnnualLumpPayment.initFromExtra (ExtraMonthlyPrincipal.init m 500) amount
      month).get_extra_principal = 500 :=
  ⟨rfl, rfl⟩

/-- C8, counterexample: constructing a `Mortgage` with invalid terms (negative
purchase price, down-payment fraction 3/2, negative rate, zero years, zero
payments per year) does not fail: the object is created and stores exactly
those invalid values, so no `ValidationError` is ever raised. -/
theorem mortgage_init_no_validation_counterexample :
    (Mortgage.init (-1) (3/2) (-1/100) 0 0 0).purchase_price = -1 ∧
    (Mortgage.init (-1) (3/2) (-1/100) 0 0 0).down_payment_percent = 3/2 ∧
    (Mortgage.init (-1) (3/2) (-1/100) 0 0 0).interest_rate = -1/100 ∧
    (Mortgage.init (-1) (3/2) (-1/100) 0 0 0).years = 0 ∧
    (Mortgage.init (-1) (3/2) (-1/100) 0 0 0).num_yearly_pmts = 0 ∧
    (Mortgage.init (-1) (3/2) (-1/100) 0 0 0).down_payment = (-1) * (3/2) :=
  ⟨rfl, rfl, rfl, rfl, rfl, rfl⟩

/-- C8 (amended): `Mortgage.__init__` performs no validation at all: arbitrary
terms, valid or not, are accepted, and every attribute (stored and derived) is
unconditionally initialized from them. -/
theorem mortgage_init_total (pp dpp ir : ℚ) (sd years np : ℕ) :
    (Mortgage.init pp dpp ir sd years np).purchase_price = pp ∧
    (Mortgage.init pp dpp ir sd years np).down_payment_percent = dpp ∧
    (Mortgage.init pp dpp ir sd years np).interest_rate = ir ∧
    (Mortgage.init pp dpp ir sd years np).start_date = sd ∧
    (Mortgage.init pp dpp ir sd years np).years = years ∧
    (Mortgage.init pp dpp ir sd years np).num_yearly_pmts = np ∧
    (Mortgage.init pp dpp ir sd years np).down_payment = pp * dpp ∧
    (Mortgage.init pp dpp ir sd years np).loan_amount = pp - pp * dpp ∧
    (Mortgage.init pp dpp ir sd years np).payment_range = date_range sd (years * np) :=
  ⟨rfl, rfl, rfl, rfl, rfl, rfl, rfl, rfl, rfl⟩

/-- C9, counterexample: on a 2-year monthly loan starting at month 0,
`set_years 1` leaves the cached payment range untouched, so `get_payoff_date`
still returns month 23 (the old payoff) instead of month 11; only after
`get_payment_range` rebuilds the cache does it return 11.  Likewise
`set_start_date 100` leaves the payoff date at 23 instead of 123. -/
theorem payoff_date_stale_counterexample :
    ((Mortgage.init 1250 (1/5) (12/100) 0 2 12).set_years 1).get_payoff_date = 23 ∧
    ((((Mortgage.init 1250 (1/5) (12/100) 0 2 12).set_years 1).get_payment_range).2).get_payoff_date = 11 ∧
    ((Mortgage.init 1250 (1/5) (12/100) 0 2 12).set_start_date 100).get_payoff_date = 23 := by
  refine ⟨?_, ?_, ?_⟩ <;>
    simp [Mortgage.init, Mortgage.set_years, Mortgage.set_start_date,
      Mortgage.get_payoff_date, Mortgage.get_payment_range, date_range,
      List.range_succ]

/-- C9 (amended): after any setter, values recomputed on read (`get_payment`,
down payment, loan amount, a fresh `get_payment_range`) reflect the mutated
terms, but the setters do not refresh the cached payment range, so
`get_payoff_date` keeps returning the stale payoff date until
`get_payment_range` (or a table build) re-derives it. -/
theorem setters_fresh_and_stale (m : Mortgage) (y sd : ℕ) (pp d ir : ℚ) :
    (m.set_years y).get_payment
        = round2 (-1 * npf_pmt (m.interest_rate / m.num_yearly_pmts)
            (y * m.num_yearly_pmts) m.loan_amount) ∧
    (m.set_years y).payment_range = m.payment_range ∧
    ((m.set_years y).get_payment_range).1
        = date_range m.start_date (y * m.num_yearly_pmts) ∧
    (m.set_start_date sd).payment_range = m.payment_range ∧
    ((m.set_start_date sd).get_payment_range).1
        = date_range sd (m.years * m.num_yearly_pmts) ∧
    (m.set_purchase_price pp).down_payment = pp * m.down_payment_percent ∧
    (m.set_purchase_price pp).loan_amount = pp - pp * m.down_payment_percent ∧
    (m.set_down_payment d).loan_amount = m.purchase_price - d ∧
    (m.set_interest_rate ir).get_payment
        = round2 (-1 * npf_pmt (ir / m.num_yearly_pmts)
            (m.years * m.num_yearly_pmts) m.loan_amount) :=
  ⟨rfl, rfl, rfl, rfl, rfl, rfl, rfl, rfl, rfl⟩

/-- C10: `set_down_payment d` stores the derived percent as
`round(d / purchase_price, 3)`; the derivation is lossy: re-setting the same
purchase price 300000 after `set_down_payment 50000` recomputes the down
payment from the rounded percent as 50100 ≠ 50000. -/
theorem set_down_payment_round_trip (m : Mortgage) (d : ℚ)
    (h : 0 < m.purchase_price) :
    (m.set_down_payment d).down_payment_percent = round3 (d / m.purchase_price) ∧
    (((Mortgage.init 300000 (1/5) (1/25) 0 30 12).set_down_payment 50000).set_purchase_price
        300000).down_payment = 50100 ∧
    (50100 : ℚ) ≠ 50000 := by
  refine ⟨rfl, ?_, by norm_num⟩
  show (300000 : ℚ) * round3 ((50000 : ℚ) / 300000) = 50100
  have h167 : round3 ((50000 : ℚ) / 300000) = ((167 : ℤ) : ℚ) / 1000 :=
    round3_eq_of_bounds _ 167 (by norm_num) (by norm_num)
  rw [h167]
  norm_num

/-- C10 witness: the theorem applied to the concrete 300000 loan. -/
theorem set_down_payment_round_trip_witness :
    ((Mortgage.init 300000 (1/5) (1/25) 0 30 12).set_down_payment 50000).down_payment_percent
        = round3 (50000 / (Mortgage.init 300000 (1/5) (1/25) 0 30 12).purchase_price) ∧
    (((Mortgage.init 300000 (1/5) (1/25) 0 30 12).set_down_payment 50000).set_purchase_price
        300000).down_payment = 50100 ∧
    (50100 : ℚ) ≠ 50000 :=
  set_down_payment_round_trip (Mortgage.init 300000 (1/5) (1/25) 0 30 12) 50000
    (by norm_num [Mortgage.init])

theorem getD_map_range {α : Type*} {f : ℕ → α} {n j : ℕ} (h : j < n) {d : α} :
    ((List.range n).map f).getD j d = f j := by
  rw [List.getD_eq_getElem?_getD]
  simp [List.getElem?_map, List.getElem?_range, h]

/-- C3, counterexample: in the standard table of the loan (price 1037, no down
payment, rate 4%, 1 year, 3 payments), the stored period-2 row has ending
balance 350.26 but beginning balance 695.90 minus principal 345.65 gives
350.25: the stored-field identity fails by one cent (rounding is applied to
the whole table once, not per step of the identity). -/
theorem balance_identity_counterexample :
    ((Mortgage.init 1037 0 (1/25) 0 1 3).get_amortization_table.getD 1
        ⟨0, 0, 0, 0, 0, 0, 0, 0, 0⟩).end_balance
      ≠ ((Mortgage.init 1037 0 (1/25) 0 1 3).get_amortization_table.getD 1
        ⟨0, 0, 0, 0, 0, 0, 0, 0, 0⟩).begin_balance
        - ((Mortgage.init 1037 0 (1/25) 0 1 3).get_amortization_table.getD 1
          ⟨0, 0, 0, 0, 0, 0, 0, 0, 0⟩).principal_paid - 0 ∧
    ((Mortgage.init 1037 0 (1/25) 0 1 3).get_amortization_table.getD 1
        ⟨0, 0, 0, 0, 0, 0, 0, 0, 0⟩).end_balance = 17513 / 50 ∧
    ((Mortgage.init 1037 0 (1/25) 0 1 3).get_amortization_table.getD 1
        ⟨0, 0, 0, 0, 0, 0, 0, 0, 0⟩).begin_balance = 6959 / 10 ∧
    ((Mortgage.init 1037 0 (1/25) 0 1 3).get_amortization_table.getD 1
        ⟨0, 0, 0, 0, 0, 0, 0, 0, 0⟩).principal_paid = 6913 / 20 := by
  have hend : ((Mortgage.init 1037 0 (1/25) 0 1 3).get_amortization_table.getD 1
      ⟨0, 0, 0, 0, 0, 0, 0, 0, 0⟩).end_balance = 17513 / 50 := by
    simp only [Mortgage.get_amortization_table, Mortgage.init]
    rw [getD_map_range (by norm_num)]
    simp only [SRow.round2]
    rw [round2_eq_of_bounds _ 35026
      (by norm_num [eb_std, princ_std, npf_ppmt, npf_ipmt, npf_fv, npf_pmt])
      (by norm_num [eb_std, princ_std, npf_ppmt, npf_ipmt, npf_fv, npf_pmt])]
    norm_num
  have hbegin : ((Mortgage.init 1037 0 (1/25) 0 1 3).get_amortization_table.getD 1
      ⟨0, 0, 0, 0, 0, 0, 0, 0, 0⟩).begin_balance = 6959 / 10 := by
    simp only [Mortgage.get_amortization_table, Mortgage.init]
    rw [getD_map_range (by norm_num)]
    simp only [SRow.round2]
    rw [round2_eq_of_bounds _ 69590
      (by norm_num [eb_std, princ_std, npf_ppmt, npf_ipmt, npf_fv, npf_pmt])
      (by norm_num [eb_std, princ_std, npf_ppmt, npf_ipmt, npf_fv, npf_pmt])]
    norm_num
  have hprinc : ((Mortgage.init 1037 0 (1/25) 0 1 3).get_amortization_table.getD 1
      ⟨0, 0, 0, 0, 0, 0, 0, 0, 0⟩).principal_paid = 6913 / 20 := by
    simp only [Mortgage.get_amortization_table, Mortgage.init]
    rw [getD_map_range (by norm_num)]
    simp only [SRow.round2]
    rw [round2_eq_of_bounds _ 34565
      (by norm_num [princ_std, npf_ppmt, npf_ipmt, npf_fv, npf_pmt])
      (by norm_num [princ_std, npf_ppmt, npf_ipmt, npf_fv, npf_pmt])]
    norm_num
  refine ⟨?_, hend, hbegin, hprinc⟩
  rw [hend, hbegin, hprinc]
  norm_num

/-- In the standard table, consecutive stored rows chain exactly:
`beginBalance(period i) = endingBalance(period i-1)`. -/
theorem std_table_chain (m : Mortgage) :
    List.Chain' (fun x y : SRow => y.begin_balance = x.end_balance)
      m.get_amortization_table := by
  unfold Mortgage.get_amortization_table
  rw [List.chain'_map]
  rcases n : m.years * m.num_yearly_pmts with - | k
  · simp
  · rw [List.chain'_range_succ]
    intro j hj
    simp [SRow.round2]

/-- In the standard table, every stored row satisfies the balance identity
within 0.02 (it is the rounding of an exact identity). -/
theorem std_table_balance_bound (m : Mortgage) (row : SRow)
    (h : row ∈ m.get_amortization_table) :
    |row.end_balance - (row.begin_balance - row.principal_paid - 0)| ≤ 1 / 50 := by
  unfold Mortgage.get_amortization_table at h
  obtain ⟨k, -, rfl⟩ := List.mem_map.mp h
  simp only [SRow.round2]
  have hb := round2_sub3_bound
    (eb_std (m.interest_rate / m.num_yearly_pmts)
      (m.years * m.num_yearly_pmts) m.loan_amount k)
    (princ_std (m.interest_rate / m.num_yearly_pmts)
      (m.years * m.num_yearly_pmts) m.loan_amount (k + 1)) 0
  rw [round2_zero] at hb
  have heq : eb_std (m.interest_rate / m.num_yearly_pmts)
      (m.years * m.num_yearly_pmts) m.loan_amount k
      - princ_std (m.interest_rate / m.num_yearly_pmts)
        (m.years * m.num_yearly_pmts) m.loan_amount (k + 1) - 0
      = eb_std (m.interest_rate / m.num_yearly_pmts)
        (m.years * m.num_yearly_pmts) m.loan_amount (k + 1) := by
    rw [eb_std]; ring
  rw [heq] at hb
  convert hb using 2

/-! ### Facts about the `ExtraMonthlyPrincipal` table generator -/

theorem x_loop_row_facts (rate pay : ℚ) (ea : ℕ → ℚ) (fuel : ℕ) :
    ∀ i date prev row, row ∈ x_loop rate pay ea fuel i date prev →
      (row.end_balance = row.begin_balance - row.principal_paid - row.extra) ∧
      (row.is_payoff = true → row.extra = 0) ∧
      (row.is_payoff = false → row.extra = ea row.payment_date) := by
  induction fuel with
  | zero => intro i date prev row h; simp [x_loop] at h
  | succ f ih =>
    intro i date prev row h
    simp only [x_loop] at h
    split_ifs at h with h1 h2
    · rw [List.mem_singleton] at h
      subst h
      exact ⟨by simp, fun _ => rfl, fun hc => by simp at hc⟩
    · rcases List.mem_cons.mp h with rfl | h'
      · exact ⟨by simp, fun _ => rfl, fun hc => by simp at hc⟩
      · exact ih _ _ _ _ h'
    · rcases List.mem_cons.mp h with rfl | h'
      · exact ⟨rfl, fun hc => by simp at hc, fun _ => rfl⟩
      · exact ih _ _ _ _ h'

theorem x_loop_chain (rate pay : ℚ) (ea : ℕ → ℚ) (hr : 0 ≤ rate) (hp : 0 ≤ pay)
    (hea : ∀ d, 0 ≤ ea d) (fuel : ℕ) :
    ∀ i date prev (r0 : XRow), r0.end_balance = prev →
      List.Chain (fun x y => y.begin_balance = x.end_balance ∧
          (round2 x.end_balance < 0 → round2 y.end_balance < 0))
        r0 (x_loop rate pay ea fuel i date prev) := by
  induction fuel with
  | zero => intro i date prev r0 h0; exact List.Chain.nil
  | succ f ih =>
    intro i date prev r0 h0
    simp only [x_loop]
    split_ifs with h1 h2
    · refine List.Chain.cons ⟨h0.symm, fun hneg => ?_⟩ List.Chain.nil
      rw [h0] at hneg
      exact absurd hneg (not_lt.mpr h1.1.le)
    · refine List.Chain.cons ⟨h0.symm, fun hneg => ?_⟩ (ih _ _ _ _ rfl)
      rw [h0] at hneg
      exact absurd hneg (not_lt.mpr h1.1.le)
    · refine List.Chain.cons ⟨h0.symm, fun hneg => ?_⟩ (ih _ _ _ _ rfl)
      rw [h0] at hneg
      have hprev : prev < 0 := round2_neg_of_neg hneg
      have hmul : 0 ≤ rate * (-prev) := mul_nonneg hr (by linarith)
      have hle : prev - (pay - rate * prev) - ea date ≤ prev := by
        have := hea date
        linarith
      show round2 (prev - (pay - rate * prev) - ea date) < 0
      exact lt_of_le_of_lt (round2_mono hle) hneg

theorem chain_all_false {α : Type*} (p : α → Bool) :
    ∀ (t : List α) (a : α),
      List.Chain (fun x y => p x = false → p y = false) a t →
      p a = false → ∀ x ∈ t, p x = false := by
  intro t
  induction t with
  | nil => intro a _ _ x hx; simp at hx
  | cons b s ih =>
    intro a hchain ha x hx
    cases hchain with
    | cons hab hbs =>
      rcases List.mem_cons.mp hx with rfl | hx'
      · exact hab ha
      · exact ih b hbs (hab ha) x hx'

theorem filter_eq_takeWhile_of_chain {α : Type*} (p : α → Bool) :
    ∀ l : List α, List.Chain' (fun x y => p x = false → p y = false) l →
      l.filter p = l.takeWhile p := by
  intro l
  induction l with
  | nil => intro _; rfl
  | cons a t ih =>
    intro h
    have hch : List.Chain (fun x y => p x = false → p y = false) a t := h
    cases hpa : p a
    · have hall : ∀ x ∈ t, p x = false := chain_all_false p t a hch hpa
      rw [List.filter_cons, List.takeWhile_cons, hpa]
      simp only [Bool.false_eq_true, if_false, if_neg]
      exact List.filter_eq_nil_iff.mpr (fun x hx => by simp [hall x hx])
    · have ht : List.Chain' (fun x y => p x = false → p y = false) t := h.tail
      rw [List.filter_cons, List.takeWhile_cons, hpa]
      simp only [if_true, if_pos]
      rw [ih ht]

theorem x_cumsum_map_core :
    ∀ (l : List XRow) (a b : ℚ),
      (x_cumsum a b l).map XRow.core = l.map XRow.core := by
  intro l
  induction l with
  | nil => intro a b; rfl
  | cons r t ih =>
    intro a b
    simp only [x_cumsum, List.map_cons]
    rw [ih]
    rfl

theorem mem_x_cumsum {l : List XRow} {a b : ℚ} {row : XRow}
    (h : row ∈ x_cumsum a b l) : ∃ r ∈ l, XRow.core r = XRow.core row := by
  have h1 : XRow.core row ∈ (x_cumsum a b l).map XRow.core :=
    List.mem_map_of_mem _ h
  rw [x_cumsum_map_core] at h1
  exact List.mem_map.mp h1

theorem get_payment_nonneg (m : Mortgage) (hpv : 0 ≤ m.loan_amount)
    (hr : 0 ≤ m.interest_rate) : 0 ≤ m.get_payment := by
  apply round2_nonneg
  have hr0 : 0 ≤ m.interest_rate / (m.num_yearly_pmts : ℚ) :=
    div_nonneg hr (Nat.cast_nonneg _)
  show 0 ≤ -1 * npf_pmt (m.interest_rate / m.num_yearly_pmts)
    (m.years * m.num_yearly_pmts) m.loan_amount
  unfold npf_pmt
  split_ifs with h0
  · have : 0 ≤ m.loan_amount / ((m.years * m.num_yearly_pmts : ℕ) : ℚ) :=
      div_nonneg hpv (Nat.cast_nonneg _)
    simpa using this
  · have hrpos : 0 < m.interest_rate / (m.num_yearly_pmts : ℚ) :=
      lt_of_le_of_ne hr0 (Ne.symm h0)
    rcases Nat.eq_zero_or_pos (m.years * m.num_yearly_pmts) with hN | hN
    · rw [hN]
      simp
    · have hgt : 1 < (1 + m.interest_rate / m.num_yearly_pmts)
          ^ (m.years * m.num_yearly_pmts) := one_lt_pow₀ (by linarith) hN.ne'
      have ht0 : (0:ℚ) < (1 + m.interest_rate / m.num_yearly_pmts)
          ^ (m.years * m.num_yearly_pmts) := by positivity
      have e : -1 * (-(m.loan_amount * (1 + m.interest_rate / m.num_yearly_pmts)
            ^ (m.years * m.num_yearly_pmts))
          / (((1 + m.interest_rate / m.num_yearly_pmts)
            ^ (m.years * m.num_yearly_pmts) - 1)
              / (m.interest_rate / m.num_yearly_pmts)))
          = (m.loan_amount * (1 + m.interest_rate / m.num_yearly_pmts)
            ^ (m.years * m.num_yearly_pmts))
          / (((1 + m.interest_rate / m.num_yearly_pmts)
            ^ (m.years * m.num_yearly_pmts) - 1)
              / (m.interest_rate / m.num_yearly_pmts)) := by ring
      rw [e]
      exact div_nonneg (mul_nonneg hpv ht0.le)
        (div_nonneg (by linarith) hr0)

/-- Anatomy of a returned `ExtraMonthlyPrincipal` table row: it is the
once-rounded image of a generated raw row satisfying the exact balance
identity, whose extra principal is 0 in the payoff branch and the (gated)
recurring amount otherwise. -/
theorem xtable_mem_facts (e : ExtraMonthlyPrincipal) (gate : Option ℕ) {row : XRow}
    (h : row ∈ e.get_amortization_table gate) :
    ∃ b p x : ℚ, row.begin_balance = round2 b ∧ row.principal_paid = round2 p ∧
      row.extra = round2 x ∧ row.end_balance = round2 (b - p - x) ∧
      (row.is_payoff = true → x = 0) ∧
      (row.is_payoff = false →
        x = gated_extra e.extra_principal gate row.payment_date) := by
  simp only [ExtraMonthlyPrincipal.get_amortization_table] at h
  split_ifs at h with h0
  · simp at h
  · obtain ⟨r1, hr1, rfl⟩ := List.mem_map.mp h
    obtain ⟨r2, hr2, hcore⟩ := mem_x_cumsum hr1
    have hr3 := List.mem_of_mem_filter hr2
    have hfacts : (r2.end_balance = r2.begin_balance - r2.principal_paid - r2.extra) ∧
        (r2.is_payoff = true → r2.extra = 0) ∧
        (r2.is_payoff = false →
          r2.extra = gated_extra e.extra_principal gate r2.payment_date) := by
      simp only [x_generated] at hr3
      rcases List.mem_cons.mp hr3 with rfl | hloop
      · exact ⟨by simp [x_first_row], fun hc => by simp [x_first_row] at hc,
          fun _ => by simp [x_first_row]⟩
      · exact x_loop_row_facts _ _ _ _ _ _ _ _ hloop
    have hb := congrArg XCore.begin_balance hcore
    have hp := congrArg XCore.principal_paid hcore
    have hx := congrArg XCore.extra hcore
    have hen := congrArg XCore.end_balance hcore
    have hfl := congrArg XCore.is_payoff hcore
    have hdt := congrArg XCore.payment_date hcore
    simp only [XRow.core] at hb hp hx hen hfl hdt
    refine ⟨r2.begin_balance, r2.principal_paid, r2.extra, ?_, ?_, ?_, ?_, ?_, ?_⟩
    · show round2 r1.begin_balance = _
      rw [hb]
    · show round2 r1.principal_paid = _
      rw [hp]
    · show round2 r1.extra = _
      rw [hx]
    · show round2 r1.end_balance = _
      rw [← hen, hfacts.1]
    · show r1.is_payoff = true → _
      intro hf
      rw [← hfl] at hf
      exact hfacts.2.1 hf
    · show r1.is_payoff = false → _
      intro hf
      rw [← hfl] at hf
      have hval := hfacts.2.2 hf
      rw [hval]
      show gated_extra e.extra_principal gate r2.payment_date
          = gated_extra e.extra_principal gate r1.payment_date
      rw [hdt]

/-- In the returned `ExtraMonthlyPrincipal` table, consecutive stored rows
chain exactly: the beginning balance of each row equals the ending balance of
the previous row.  (Trailing rows with negative rounded ending balance form a
suffix of the generated rows, so dropping them preserves adjacency.) -/
theorem xtable_chain (e : ExtraMonthlyPrincipal) (gate : Option ℕ)
    (hr : 0 ≤ e.toMortgage.interest_rate)
    (hpv : 0 ≤ e.toMortgage.loan_amount)
    (hx : 0 ≤ e.extra_principal) :
    List.Chain' (fun x y : XRow => y.begin_balance = x.end_balance)
      (e.get_amortization_table gate) := by
  have hr0 : 0 ≤ e.toMortgage.interest_rate / (e.toMortgage.num_yearly_pmts : ℚ) :=
    div_nonneg hr (Nat.cast_nonneg _)
  have hpay : 0 ≤ e.toMortgage.get_payment := get_payment_nonneg _ hpv hr
  have hea : ∀ d, 0 ≤ gated_extra e.extra_principal gate d := by
    intro d
    unfold gated_extra
    rcases gate with - | g
    · exact hx
    · dsimp only
      split_ifs
      · exact le_refl 0
      · exact hx
  simp only [ExtraMonthlyPrincipal.get_amortization_table]
  split_ifs with h0
  · exact List.chain'_nil
  · have hchain : List.Chain' (fun x y : XRow => y.begin_balance = x.end_balance ∧
        (round2 x.end_balance < 0 → round2 y.end_balance < 0))
        (x_generated e gate) := by
      show List.Chain _ (x_first_row e gate) _
      exact x_loop_chain _ _ _ hr0 hpay hea _ _ _ _ _ rfl
    have hbool : List.Chain' (fun x y : XRow =>
        (decide (0 ≤ round2 x.end_balance)) = false →
        (decide (0 ≤ round2 y.end_balance)) = false) (x_generated e gate) :=
      hchain.imp (fun a b hab => by
        intro hfx
        rw [decide_eq_false_iff_not, not_le] at hfx ⊢
        exact hab.2 hfx)
    rw [filter_eq_takeWhile_of_chain _ _ hbool]
    have hkept := List.Chain'.prefix (hchain.imp (fun a b hab => hab.1))
      ( List.takeWhile_prefix (fun row => decide (0 ≤ round2 row.end_balance)))
    have hcore : List.Chain' (fun a b : XCore =>
        b.begin_balance = a.end_balance)
        (List.map XRow.core ((x_generated e gate).takeWhile
          (fun row => decide (0 ≤ round2 row.end_balance)))) :=
      (List.chain'_map XRow.core).mpr hkept
    rw [← x_cumsum_map_core _ 0 0] at hcore
    have hcs : List.Chain' (fun a b : XRow => b.begin_balance = a.end_balance)
        (x_cumsum 0 0 ((x_generated e gate).takeWhile
          (fun row => decide (0 ≤ round2 row.end_balance)))) :=
      (List.chain'_map XRow.core).mp hcore
    exact (List.chain'_map XRow.round2).mpr
      (hcs.imp (fun a b hab => congrArg round2 hab))

/-- Every returned `ExtraMonthlyPrincipal` table row satisfies the balance
identity within 0.02 (it is the rounding of an exact identity). -/
theorem xtable_balance_bound (e : ExtraMonthlyPrincipal) (gate : Option ℕ)
    {row : XRow} (h : row ∈ e.get_amortization_table gate) :
    |row.end_balance - (row.begin_balance - row.principal_paid - row.extra)|
      ≤ 1 / 50 := by
  obtain ⟨b, p, x, hb, hp, hx, he, -, -⟩ := xtable_mem_facts e gate h
  rw [hb, hp, hx, he]
  exact round2_sub3_bound b p x

/-- C3 (amended): in every returned table (standard and extra-principal), the
fields are rounded once when the table is returned; the stored chain
`beginBalance(i) = endingBalance(i-1)` holds exactly, and the stored balance
identity `ending = beginning - principal - extra` holds within 0.02 (being the
rounding of an exact identity), though not always exactly. -/
theorem amortization_balance_invariants (pp dpp ir : ℚ) (sd years np : ℕ)
    (xtra : ℚ) (gate : Option ℕ) (h : ValidTerms pp dpp ir years np)
    (hx : 0 ≤ xtra) :
    List.Chain' (fun x y : SRow => y.begin_balance = x.end_balance)
      (Mortgage.init pp dpp ir sd years np).get_amortization_table ∧
    (∀ row ∈ (Mortgage.init pp dpp ir sd years np).get_amortization_table,
      |row.end_balance - (row.begin_balance - row.principal_paid - 0)| ≤ 1 / 50) ∧
    List.Chain' (fun x y : XRow => y.begin_balance = x.end_balance)
      ((ExtraMonthlyPrincipal.init (Mortgage.init pp dpp ir sd years np)
        xtra).get_amortization_table gate) ∧
    (∀ row ∈ (ExtraMonthlyPrincipal.init (Mortgage.init pp dpp ir sd years np)
        xtra).get_amortization_table gate,
      |row.end_balance - (row.begin_balance - row.principal_paid - row.extra)|
        ≤ 1 / 50) := by
  obtain ⟨hpp, hd0, hd1, hir, hy, hnp⟩ := h
  refine ⟨std_table_chain _, fun row hrow => std_table_balance_bound _ row hrow,
    ?_, fun row hrow => xtable_balance_bound _ _ hrow⟩
  apply xtable_chain
  · exact hir
  · show (0:ℚ) ≤ pp - pp * dpp
    nlinarith
  · exact hx

/-- C3 witness: the amended theorem applied to a concrete 1-year loan with
extra principal 50 and no gating date. -/
theorem amortization_balance_invariants_witness :
    List.Chain' (fun x y : SRow => y.begin_balance = x.end_balance)
      (Mortgage.init 1250 (1/5) (12/100) 0 1 12).get_amortization_table ∧
    (∀ row ∈ (Mortgage.init 1250 (1/5) (12/100) 0 1 12).get_amortization_table,
      |row.end_balance - (row.begin_balance - row.principal_paid - 0)| ≤ 1 / 50) ∧
    List.Chain' (fun x y : XRow => y.begin_balance = x.end_balance)
      ((ExtraMonthlyPrincipal.init (Mortgage.init 1250 (1/5) (12/100) 0 1 12)
        50).get_amortization_table none) ∧
    (∀ row ∈ (ExtraMonthlyPrincipal.init (Mortgage.init 1250 (1/5) (12/100) 0 1 12)
        50).get_amortization_table none,
      |row.end_balance - (row.begin_balance - row.principal_paid - row.extra)|
        ≤ 1 / 50) :=
  amortization_balance_invariants 1250 (1/5) (12/100) 0 1 12 50 none
    (by unfold ValidTerms; norm_num) (by norm_num)

/-- C6: with an `extra_principal_start_date`, every returned period whose
payment date is strictly before that date has extra principal 0, and every
non-payoff period on or after it carries the full (cent-exact) recurring
amount: the gating is exclusive-before, inclusive-from. -/
theorem extra_principal_start_date_gating (e : ExtraMonthlyPrincipal) (g : ℕ)
    (hcent : round2 e.extra_principal = e.extra_principal) :
    ∀ row ∈ e.get_amortization_table (some g),
      (row.payment_date < g → row.extra = 0) ∧
      (¬ row.payment_date < g → row.is_payoff = false →
        row.extra = e.extra_principal) := by
  intro row hrow
  obtain ⟨b, p, x, -, -, hx, -, hpay, hnon⟩ := xtable_mem_facts e (some g) hrow
  constructor
  · intro hd
    cases hf : row.is_payoff with
    | true => rw [hx, hpay hf, round2_zero]
    | false =>
      have hval := hnon hf
      rw [hx, hval]
      show round2 (gated_extra e.extra_principal (some g) row.payment_date) = 0
      simp only [gated_extra]
      rw [if_pos hd, round2_zero]
  · intro hd hf
    have hval := hnon hf
    rw [hx, hval]
    show round2 (gated_extra e.extra_principal (some g) row.payment_date) = _
    simp only [gated_extra]
    rw [if_neg hd, hcent]

/-! ### Step equations and length bounds for the loop -/

theorem x_loop_payoff_break (rate pay : ℚ) (ea : ℕ → ℚ) (fuel i date : ℕ)
    (prev : ℚ) (h1 : 0 < round2 prev ∧ prev ≤ pay) :
    x_loop rate pay ea (fuel + 1) i date prev =
      [{ period := i, payment_date := date, payment := prev * (1 + rate),
         principal_paid := prev * (1 + rate) - rate * prev,
         interest_paid := rate * prev, extra := 0, begin_balance := prev,
         end_balance := prev - (prev * (1 + rate) - rate * prev),
         cum_principal := 0, cum_interest := 0, is_payoff := true }] := by
  simp only [x_loop]
  rw [if_pos h1, if_pos ?_]
  have heq : prev - (prev * (1 + rate) - rate * prev) = 0 := by ring
  rw [heq, round2_zero]

theorem x_loop_else_step (rate pay : ℚ) (ea : ℕ → ℚ) (fuel i date : ℕ)
    (prev : ℚ) (h1 : ¬(0 < round2 prev ∧ prev ≤ pay)) :
    x_loop rate pay ea (fuel + 1) i date prev =
      { period := i, payment_date := date, payment := pay,
        principal_paid := pay - rate * prev, interest_paid := rate * prev,
        extra := ea date, begin_balance := prev,
        end_balance := prev - (pay - rate * prev) - ea date,
        cum_principal := 0, cum_interest := 0, is_payoff := false } ::
      x_loop rate pay ea fuel (i + 1) (date + 1)
        (prev - (pay - rate * prev) - ea date) := by
  simp only [x_loop]
  rw [if_neg h1]

theorem filter_keep {α : Type*} (p : α → Bool) (a : α) (l : List α)
    (h : p a = true) : (a :: l).filter p = a :: l.filter p := by
  rw [List.filter_cons, if_pos h]

theorem filter_drop {α : Type*} (p : α → Bool) (a : α) (l : List α)
    (h : p a = false) : (a :: l).filter p = l.filter p := by
  rw [List.filter_cons, if_neg (by simp [h])]

theorem gated_extra_zero (gate : Option ℕ) (d : ℕ) : gated_extra 0 gate d = 0 := by
  unfold gated_extra
  rcases gate with - | g
  · rfl
  · dsimp only
    split_ifs <;> rfl

theorem x_loop_length_le (rate pay : ℚ) (ea : ℕ → ℚ) (fuel : ℕ) :
    ∀ i date prev, (x_loop rate pay ea fuel i date prev).length ≤ fuel := by
  induction fuel with
  | zero => intro i date prev; simp [x_loop]
  | succ f ih =>
    intro i date prev
    simp only [x_loop]
    split_ifs
    · simp
    · simpa [Nat.succ_le_succ_iff] using ih _ _ _
    · simpa [Nat.succ_le_succ_iff] using ih _ _ _

theorem x_cumsum_length (l : List XRow) (a b : ℚ) :
    (x_cumsum a b l).length = l.length := by
  have h := congrArg List.length (x_cumsum_map_core l a b)
  simpa using h

/-- The `ExtraMonthlyPrincipal` table never exceeds the nominal number of
periods, and every retained stored ending balance is non-negative. -/
theorem xtable_length_le_and_nonneg (e : ExtraMonthlyPrincipal) (gate : Option ℕ) :
    (e.get_amortization_table gate).length
        ≤ e.toMortgage.years * e.toMortgage.num_yearly_pmts ∧
    ∀ row ∈ e.get_amortization_table gate, 0 ≤ row.end_balance := by
  constructor
  · simp only [ExtraMonthlyPrincipal.get_amortization_table]
    split_ifs with h0
    · simp
    · rw [List.length_map, x_cumsum_length]
      have h1 := List.length_filter_le
        (fun row => decide (0 ≤ round2 row.end_balance)) (x_generated e gate)
      have h2 : (x_generated e gate).length
          ≤ e.toMortgage.years * e.toMortgage.num_yearly_pmts := by
        simp only [x_generated, List.length_cons]
        have h3 := x_loop_length_le
          (e.toMortgage.interest_rate / e.toMortgage.num_yearly_pmts)
          e.toMortgage.get_payment (gated_extra e.extra_principal gate)
          (e.toMortgage.years * e.toMortgage.num_yearly_pmts - 1) 2
          (e.toMortgage.start_date + 1) (x_first_row e gate).end_balance
        omega
      exact le_trans h1 h2
  · intro row hrow
    simp only [ExtraMonthlyPrincipal.get_amortization_table] at hrow
    split_ifs at hrow with h0
    · simp at hrow
    · obtain ⟨r1, hr1, rfl⟩ := List.mem_map.mp hrow
      obtain ⟨r2, hr2, hcore⟩ := mem_x_cumsum hr1
      have hen := congrArg XCore.end_balance hcore
      simp only [XRow.core] at hen
      have hkeep := List.of_mem_filter hr2
      rw [decide_eq_true_eq] at hkeep
      show 0 ≤ round2 r1.end_balance
      rw [← hen]
      exact hkeep

theorem round2_pos_of_le {q : ℚ} (h : 1 / 100 ≤ q) : 0 < round2 q := by
  have h1 : round2 (1 / 100) ≤ round2 q := round2_mono h
  have h2 : round2 (1 / 100 : ℚ) = ((1 : ℤ) : ℚ) / 100 :=
    round2_eq_of_bounds _ 1 (by norm_num) (by norm_num)
  rw [h2] at h1
  norm_num at h1
  linarith

theorem round2_lt_zero {q : ℚ} (h : q ≤ -1 / 100) : round2 q < 0 := by
  have h1 : round2 q ≤ round2 (-1 / 100) := round2_mono h
  have h2 : round2 (-1 / 100 : ℚ) = ((-1 : ℤ) : ℚ) / 100 :=
    round2_eq_of_bounds _ (-1) (by norm_num) (by norm_num)
  rw [h2] at h1
  norm_num at h1
  linarith

theorem init_interest_rate (pp dpp ir : ℚ) (sd years np : ℕ) :
    (Mortgage.init pp dpp ir sd years np).interest_rate = ir := rfl

theorem init_num_yearly_pmts (pp dpp ir : ℚ) (sd years np : ℕ) :
    (Mortgage.init pp dpp ir sd years np).num_yearly_pmts = np := rfl

theorem init_years (pp dpp ir : ℚ) (sd years np : ℕ) :
    (Mortgage.init pp dpp ir sd years np).years = years := rfl

theorem init_start_date (pp dpp ir : ℚ) (sd years np : ℕ) :
    (Mortgage.init pp dpp ir sd years np).start_date = sd := rfl

theorem init_loan_amount (pp dpp ir : ℚ) (sd years np : ℕ) :
    (Mortgage.init pp dpp ir sd years np).loan_amount = pp - pp * dpp := rfl

theorem emp_init_extra (m : Mortgage) (x : ℚ) :
    (ExtraMonthlyPrincipal.init m x).extra_principal = x := rfl

theorem emp_init_toMortgage (pp dpp ir : ℚ) (sd years np : ℕ) (x : ℚ) :
    (ExtraMonthlyPrincipal.init (Mortgage.init pp dpp ir sd years np)
      x).toMortgage = Mortgage.init pp dpp ir sd years np := rfl

theorem std_table_length (m : Mortgage) :
    m.get_amortization_table.length = m.years * m.num_yearly_pmts := by
  simp [Mortgage.get_amortization_table]

/-! ### Concrete executions of the extra-principal schedule on small loans -/

theorem payA : (Mortgage.init 1000 0 (1/25) 0 1 2).get_payment = 10301/20 := by
  show round2 (-1 * npf_pmt ((1/25) / ((2:ℕ):ℚ)) (1*2) (1000 - 1000*0)) = _
  rw [round2_eq_of_bounds _ 51505
    (by rw [npf_pmt, if_neg (by norm_num)]; norm_num)
    (by rw [npf_pmt, if_neg (by norm_num)]; norm_num)]
  norm_num

theorem row1A : x_first_row (ExtraMonthlyPrincipal.init
    (Mortgage.init 1000 0 (1/25) 0 1 2) (1/100)) none =
    { period := 1, payment_date := 0, payment := 10301/20,
      principal_paid := 50000/101, interest_paid := 20, extra := 1/100,
      begin_balance := 1000, end_balance := 5099899/10100,
      cum_principal := 0, cum_interest := 0, is_payoff := false } := by
  simp only [x_first_row, emp_init_toMortgage, emp_init_extra,
    init_interest_rate, init_num_yearly_pmts, init_years, init_start_date,
    init_loan_amount]
  rw [payA]
  norm_num [XRow.mk.injEq, princ_std, int_std, npf_ppmt, npf_ipmt, npf_fv,
    npf_pmt, gated_extra]

theorem genA : x_generated (ExtraMonthlyPrincipal.init
    (Mortgage.init 1000 0 (1/25) 0 1 2) (1/100)) none =
    [{ period := 1, payment_date := 0, payment := 10301/20,
       principal_paid := 50000/101, interest_paid := 20, extra := 1/100,
       begin_balance := 1000, end_balance := 5099899/10100,
       cum_principal := 0, cum_interest := 0, is_payoff := false },
     { period := 2, payment_date := 1, payment := 260094849/505000,
       principal_paid := 5099899/10100, interest_paid := 5099899/505000,
       extra := 0, begin_balance := 5099899/10100, end_balance := 0,
       cum_principal := 0, cum_interest := 0, is_payoff := true }] := by
  simp only [x_generated, emp_init_toMortgage, emp_init_extra,
    init_interest_rate, init_num_yearly_pmts, init_years, init_start_date]
  rw [payA, row1A]
  norm_num
  rw [x_loop_payoff_break _ _ _ _ _ _ _
    ⟨round2_pos_of_le (by norm_num), by norm_num⟩]
  norm_num [XRow.mk.injEq]

theorem lenA : ((ExtraMonthlyPrincipal.init
    (Mortgage.init 1000 0 (1/25) 0 1 2) (1/100)).get_amortization_table).length
      = 2 := by
  simp only [ExtraMonthlyPrincipal.get_amortization_table, emp_init_toMortgage,
    init_years, init_num_yearly_pmts]
  rw [if_neg (by norm_num)]
  rw [genA]
  rw [filter_keep _ _ _ (by
    show decide ((0:ℚ) ≤ round2 ((5099899:ℚ)/10100)) = true
    exact decide_eq_true (le_of_lt (round2_pos_of_le (by norm_num))))]
  rw [filter_keep _ _ _ (by
    show decide ((0:ℚ) ≤ round2 (0:ℚ)) = true
    exact decide_eq_true (by rw [round2_zero]))]
  rw [List.filter_nil, List.length_map, x_cumsum_length]
  rfl

theorem payB : (Mortgage.init 1200 0 (1/25) 0 1 3).get_payment = 41071/100 := by
  show round2 (-1 * npf_pmt ((1/25) / ((3:ℕ):ℚ)) (1*3) (1200 - 1200*0)) = _
  rw [round2_eq_of_bounds _ 41071
    (by rw [npf_pmt, if_neg (by norm_num)]; norm_num)
    (by rw [npf_pmt, if_neg (by norm_num)]; norm_num)]
  norm_num

theorem row1B : x_first_row (ExtraMonthlyPrincipal.init
    (Mortgage.init 1200 0 (1/25) 0 1 3) 300) none =
    { period := 1, payment_date := 0, payment := 41071/100,
      principal_paid := 6750000/17101, interest_paid := 16, extra := 300,
      begin_balance := 1200, end_balance := 8640900/17101,
      cum_principal := 0, cum_interest := 0, is_payoff := false } := by
  simp only [x_first_row, emp_init_toMortgage, emp_init_extra,
    init_interest_rate, init_num_yearly_pmts, init_years, init_start_date,
    init_loan_amount]
  rw [payB]
  norm_num [XRow.mk.injEq, princ_std, int_std, npf_ppmt, npf_ipmt, npf_fv,
    npf_pmt, gated_extra]

theorem genB : x_generated (ExtraMonthlyPrincipal.init
    (Mortgage.init 1200 0 (1/25) 0 1 3) 300) none =
    [{ period := 1, payment_date := 0, payment := 41071/100,
       principal_paid := 6750000/17101, interest_paid := 16, extra := 300,
       begin_balance := 1200, end_balance := 8640900/17101,
       cum_principal := 0, cum_interest := 0, is_payoff := false },
     { period := 2, payment_date := 1, payment := 41071/100,
       principal_paid := 690833971/1710100, interest_paid := 115212/17101,
       extra := 300, begin_balance := 8640900/17101,
       end_balance := -339773971/1710100,
       cum_principal := 0, cum_interest := 0, is_payoff := false },
     { period := 3, payment_date := 2, payment := 41071/100,
       principal_paid := 13254102949/32064375,
       interest_paid := -339773971/128257500,
       extra := 300, begin_balance := -339773971/1710100,
       end_balance := -116976709621/128257500,
       cum_principal := 0, cum_interest := 0, is_payoff := false }] := by
  simp only [x_generated, emp_init_toMortgage, emp_init_extra,
    init_interest_rate, init_num_yearly_pmts, init_years, init_start_date]
  rw [payB, row1B]
  norm_num
  rw [x_loop_else_step _ _ _ _ _ _ _ (by
    rintro ⟨-, h2⟩
    norm_num at h2)]
  norm_num [gated_extra]
  rw [x_loop_else_step _ _ _ _ _ _ _ (by
    rintro ⟨h1, -⟩
    have h2 := round2_lt_zero (q := -339773971/1710100) (by norm_num)
    linarith)]
  norm_num [gated_extra, x_loop, XRow.mk.injEq]

theorem tableB : (ExtraMonthlyPrincipal.init
    (Mortgage.init 1200 0 (1/25) 0 1 3) 300).get_amortization_table.length = 1 ∧
    (((ExtraMonthlyPrincipal.init (Mortgage.init 1200 0 (1/25) 0 1 3)
        300).get_amortization_table).getD 0
      ⟨0, 0, 0, 0, 0, 0, 0, 0, 0, 0, false⟩).end_balance = 50529/100 := by
  have hpipe : (ExtraMonthlyPrincipal.init (Mortgage.init 1200 0 (1/25) 0 1 3)
      300).get_amortization_table = (x_cumsum 0 0
        [{ period := 1, payment_date := 0, payment := 41071/100,
           principal_paid := 6750000/17101, interest_paid := 16, extra := 300,
           begin_balance := 1200, end_balance := 8640900/17101,
           cum_principal := 0, cum_interest := 0,
           is_payoff := false }]).map XRow.round2 := by
    simp only [ExtraMonthlyPrincipal.get_amortization_table, emp_init_toMortgage,
      init_years, init_num_yearly_pmts]
    rw [if_neg (by norm_num)]
    rw [genB]
    rw [filter_keep _ _ _ (by
      show decide ((0:ℚ) ≤ round2 ((8640900:ℚ)/17101)) = true
      exact decide_eq_true (le_of_lt (round2_pos_of_le (by norm_num))))]
    rw [filter_drop _ _ _ (by
      show decide ((0:ℚ) ≤ round2 ((-339773971:ℚ)/1710100)) = false
      exact decide_eq_false (not_le.mpr (round2_lt_zero (by norm_num))))]
    rw [filter_drop _ _ _ (by
      show decide ((0:ℚ) ≤ round2 ((-116976709621:ℚ)/128257500)) = false
      exact decide_eq_false (not_le.mpr (round2_lt_zero (by norm_num))))]
    rw [List.filter_nil]
  rw [hpipe]
  constructor
  · rw [List.length_map, x_cumsum_length]
    rfl
  · simp only [x_cumsum, List.map_cons, List.map_nil, List.getD]
    show round2 ((8640900:ℚ)/17101) = _
    rw [round2_eq_of_bounds _ 50529 (by norm_num) (by norm_num)]
    norm_num

theorem row1C : x_first_row (ExtraMonthlyPrincipal.init
    (Mortgage.init 1200 0 (1/25) 0 1 3) 450) none =
    { period := 1, payment_date := 0, payment := 41071/100,
      principal_paid := 6750000/17101, interest_paid := 16, extra := 450,
      begin_balance := 1200, end_balance := 6075750/17101,
      cum_principal := 0, cum_interest := 0, is_payoff := false } := by
  simp only [x_first_row, emp_init_toMortgage, emp_init_extra,
    init_interest_rate, init_num_yearly_pmts, init_years, init_start_date,
    init_loan_amount]
  rw [payB]
  norm_num [XRow.mk.injEq, princ_std, int_std, npf_ppmt, npf_ipmt, npf_fv,
    npf_pmt, gated_extra]

theorem genC : x_generated (ExtraMonthlyPrincipal.init
    (Mortgage.init 1200 0 (1/25) 0 1 3) 450) none =
    [{ period := 1, payment_date := 0, payment := 41071/100,
       principal_paid := 6750000/17101, interest_paid := 16, extra := 450,
       begin_balance := 1200, end_balance := 6075750/17101,
       cum_principal := 0, cum_interest := 0, is_payoff := false },
     { period := 2, payment_date := 1, payment := 6156760/17101,
       principal_paid := 6075750/17101, interest_paid := 81010/17101,
       extra := 0, begin_balance := 6075750/17101, end_balance := 0,
       cum_principal := 0, cum_interest := 0, is_payoff := true }] := by
  simp only [x_generated, emp_init_toMortgage, emp_init_extra,
    init_interest_rate, init_num_yearly_pmts, init_years, init_start_date]
  rw [payB, row1C]
  norm_num
  rw [x_loop_payoff_break _ _ _ _ _ _ _
    ⟨round2_pos_of_le (by norm_num), by norm_num⟩]
  norm_num [XRow.mk.injEq]

theorem tableC : (ExtraMonthlyPrincipal.init
    (Mortgage.init 1200 0 (1/25) 0 1 3) 450).get_amortization_table.length = 2 ∧
    (((ExtraMonthlyPrincipal.init (Mortgage.init 1200 0 (1/25) 0 1 3)
        450).get_amortization_table).getD 1
      ⟨0, 0, 0, 0, 0, 0, 0, 0, 0, 0, false⟩).end_balance = 0 ∧
    (((ExtraMonthlyPrincipal.init (Mortgage.init 1200 0 (1/25) 0 1 3)
        450).get_amortization_table).getD 1
      ⟨0, 0, 0, 0, 0, 0, 0, 0, 0, 0, false⟩).is_payoff = true := by
  have hpipe : (ExtraMonthlyPrincipal.init (Mortgage.init 1200 0 (1/25) 0 1 3)
      450).get_amortization_table = (x_cumsum 0 0
        [{ period := 1, payment_date := 0, payment := 41071/100,
           principal_paid := 6750000/17101, interest_paid := 16, extra := 450,
           begin_balance := 1200, end_balance := 6075750/17101,
           cum_principal := 0, cum_interest := 0, is_payoff := false },
         { period := 2, payment_date := 1, payment := 6156760/17101,
           principal_paid := 6075750/17101, interest_paid := 81010/17101,
           extra := 0, begin_balance := 6075750/17101, end_balance := 0,
           cum_principal := 0, cum_interest := 0,
           is_payoff := true }]).map XRow.round2 := by
    simp only [ExtraMonthlyPrincipal.get_amortization_table, emp_init_toMortgage,
      init_years, init_num_yearly_pmts]
    rw [if_neg (by norm_num)]
    rw [genC]
    rw [filter_keep _ _ _ (by
      show decide ((0:ℚ) ≤ round2 ((6075750:ℚ)/17101)) = true
      exact decide_eq_true (le_of_lt (round2_pos_of_le (by norm_num))))]
    rw [filter_keep _ _ _ (by
      show decide ((0:ℚ) ≤ round2 (0:ℚ)) = true
      exact decide_eq_true (by rw [round2_zero]))]
    rw [List.filter_nil]
  rw [hpipe]
  refine ⟨?_, ?_, ?_⟩
  · rw [List.length_map, x_cumsum_length]
    rfl
  · simp only [x_cumsum, List.map_cons, List.map_nil, List.getD]
    show round2 (0:ℚ) = _
    rw [round2_zero]
  · simp only [x_cumsum, List.map_cons, List.map_nil, List.getD]
    rfl

theorem payD : (Mortgage.init 900 0 (1/50) 0 1 3).get_payment = 30401/100 := by
  show round2 (-1 * npf_pmt ((1/50) / ((3:ℕ):ℚ)) (1*3) (900 - 900*0)) = _
  rw [round2_eq_of_bounds _ 30401
    (by rw [npf_pmt, if_neg (by norm_num)]; norm_num)
    (by rw [npf_pmt, if_neg (by norm_num)]; norm_num)]
  norm_num

theorem row1D : x_first_row (ExtraMonthlyPrincipal.init
    (Mortgage.init 900 0 (1/50) 0 1 3) 0) none =
    { period := 1, payment_date := 0, payment := 30401/100,
      principal_paid := 20250000/67951, interest_paid := 6, extra := 0,
      begin_balance := 900, end_balance := 40905900/67951,
      cum_principal := 0, cum_interest := 0, is_payoff := false } := by
  simp only [x_first_row, emp_init_toMortgage, emp_init_extra,
    init_interest_rate, init_num_yearly_pmts, init_years, init_start_date,
    init_loan_amount]
  rw [payD]
  norm_num [XRow.mk.injEq, princ_std, int_std, npf_ppmt, npf_ipmt, npf_fv,
    npf_pmt, gated_extra]

theorem genD : x_generated (ExtraMonthlyPrincipal.init
    (Mortgage.init 900 0 (1/50) 0 1 3) 0) none =
    [{ period := 1, payment_date := 0, payment := 30401/100,
       principal_paid := 20250000/67951, interest_paid := 6, extra := 0,
       begin_balance := 900, end_balance := 40905900/67951,
       cum_principal := 0, cum_interest := 0, is_payoff := false },
     { period := 2, payment_date := 1, payment := 30401/100,
       principal_paid := 2038507751/6795100, interest_paid := 272706/67951,
       extra := 0, begin_balance := 40905900/67951,
       end_balance := 2052082249/6795100,
       cum_principal := 0, cum_interest := 0, is_payoff := false },
     { period := 3, payment_date := 2, payment := 309864419599/1019265000,
       principal_paid := 2052082249/6795100,
       interest_paid := 2052082249/1019265000,
       extra := 0, begin_balance := 2052082249/6795100, end_balance := 0,
       cum_principal := 0, cum_interest := 0, is_payoff := true }] := by
  simp only [x_generated, emp_init_toMortgage, emp_init_extra,
    init_interest_rate, init_num_yearly_pmts, init_years, init_start_date]
  rw [payD, row1D]
  norm_num
  rw [x_loop_else_step _ _ _ _ _ _ _ (by
    rintro ⟨-, h2⟩
    norm_num at h2)]
  norm_num [gated_extra]
  rw [x_loop_payoff_break _ _ _ _ _ _ _
    ⟨round2_pos_of_le (by norm_num), by norm_num⟩]
  norm_num [XRow.mk.injEq]

theorem tableD : (ExtraMonthlyPrincipal.init
    (Mortgage.init 900 0 (1/50) 0 1 3) 0).get_amortization_table.length = 3 ∧
    (((ExtraMonthlyPrincipal.init (Mortgage.init 900 0 (1/50) 0 1 3)
        0).get_amortization_table).getD 1
      ⟨0, 0, 0, 0, 0, 0, 0, 0, 0, 0, false⟩).end_balance = 30199/100 ∧
    (((ExtraMonthlyPrincipal.init (Mortgage.init 900 0 (1/50) 0 1 3)
        0).get_amortization_table).getD 1
      ⟨0, 0, 0, 0, 0, 0, 0, 0, 0, 0, false⟩).period = 2 := by
  have hpipe : (ExtraMonthlyPrincipal.init (Mortgage.init 900 0 (1/50) 0 1 3)
      0).get_amortization_table = (x_cumsum 0 0
        [{ period := 1, payment_date := 0, payment := 30401/100,
           principal_paid := 20250000/67951, interest_paid := 6, extra := 0,
           begin_balance := 900, end_balance := 40905900/67951,
           cum_principal := 0, cum_interest := 0, is_payoff := false },
         { period := 2, payment_date := 1, payment := 30401/100,
           principal_paid := 2038507751/6795100, interest_paid := 272706/67951,
           extra := 0, begin_balance := 40905900/67951,
           end_balance := 2052082249/6795100,
           cum_principal := 0, cum_interest := 0, is_payoff := false },
         { period := 3, payment_date := 2, payment := 309864419599/1019265000,
           principal_paid := 2052082249/6795100,
           interest_paid := 2052082249/1019265000,
           extra := 0, begin_balance := 2052082249/6795100, end_balance := 0,
           cum_principal := 0, cum_interest := 0,
           is_payoff := true }]).map XRow.round2 := by
    simp only [ExtraMonthlyPrincipal.get_amortization_table, emp_init_toMortgage,
      init_years, init_num_yearly_pmts]
    rw [if_neg (by norm_num)]
    rw [genD]
    rw [filter_keep _ _ _ (by
      show decide ((0:ℚ) ≤ round2 ((40905900:ℚ)/67951)) = true
      exact decide_eq_true (le_of_lt (round2_pos_of_le (by norm_num))))]
    rw [filter_keep _ _ _ (by
      show decide ((0:ℚ) ≤ round2 ((2052082249:ℚ)/6795100)) = true
      exact decide_eq_true (le_of_lt (round2_pos_of_le (by norm_num))))]
    rw [filter_keep _ _ _ (by
      show decide ((0:ℚ) ≤ round2 (0:ℚ)) = true
      exact decide_eq_true (by rw [round2_zero]))]
    rw [List.filter_nil]
  rw [hpipe]
  refine ⟨?_, ?_, ?_⟩
  · rw [List.length_map, x_cumsum_length]
    rfl
  · simp only [x_cumsum, List.map_cons, List.map_nil, List.getD]
    show round2 ((2052082249:ℚ)/6795100) = _
    rw [round2_eq_of_bounds _ 30199 (by norm_num) (by norm_num)]
    norm_num
  · simp only [x_cumsum, List.map_cons, List.map_nil, List.getD]
    rfl

theorem stdD : (((Mortgage.init 900 0 (1/50) 0 1 3).get_amortization_table).getD 1
      ⟨0, 0, 0, 0, 0, 0, 0, 0, 0⟩).end_balance = 302 ∧
    (((Mortgage.init 900 0 (1/50) 0 1 3).get_amortization_table).getD 1
      ⟨0, 0, 0, 0, 0, 0, 0, 0, 0⟩).period = 2 := by
  constructor
  · simp only [Mortgage.get_amortization_table, Mortgage.init]
    rw [getD_map_range (by norm_num)]
    simp only [SRow.round2]
    rw [round2_eq_of_bounds _ 30200
      (by norm_num [eb_std, princ_std, npf_ppmt, npf_ipmt, npf_fv, npf_pmt])
      (by norm_num [eb_std, princ_std, npf_ppmt, npf_ipmt, npf_fv, npf_pmt])]
    norm_num
  · simp only [Mortgage.get_amortization_table, Mortgage.init]
    rw [getD_map_range (by norm_num)]
    rfl

/-- C4, counterexample: (i) with the tiny positive extra payment 0.01 on a
1-year 2-payment loan, the schedule still has the full nominal 2 periods (not
strictly fewer); (ii) with extra payment 300 on a 1-year 3-payment loan of
1200, the balance overshoots without triggering the payoff branch, the
trailing negative periods are dropped, and the final retained ending balance
is 505.29, not 0. -/
theorem xtable_term_counterexample :
    (0:ℚ) < 1/100 ∧
    ((ExtraMonthlyPrincipal.init (Mortgage.init 1000 0 (1/25) 0 1 2)
      (1/100)).get_amortization_table).length = 2 ∧
    (Mortgage.init 1000 0 (1/25) 0 1 2).get_number_of_payments = 2 ∧
    (0:ℚ) < 300 ∧
    ((ExtraMonthlyPrincipal.init (Mortgage.init 1200 0 (1/25) 0 1 3)
      300).get_amortization_table).length = 1 ∧
    (((ExtraMonthlyPrincipal.init (Mortgage.init 1200 0 (1/25) 0 1 3)
        300).get_amortization_table).getD 0
      ⟨0, 0, 0, 0, 0, 0, 0, 0, 0, 0, false⟩).end_balance = 50529/100 ∧
    ((50529:ℚ)/100 ≠ 0) := by
  refine ⟨by norm_num, lenA, rfl, by norm_num, tableB.1, tableB.2, by norm_num⟩

/-- C4 (amended): for every loan and extra amount, the extra-principal table
has at most the nominal number of periods and every retained stored ending
balance is non-negative (trailing negative-balance periods are dropped); when
the payoff branch ends generation the final balance is exactly 0 and the
schedule is strictly shorter, as on the 1200/4%/3-period loan with extra 450. -/
theorem xtable_truncation (pp dpp ir : ℚ) (sd years np : ℕ) (xtra : ℚ)
    (gate : Option ℕ) (h : ValidTerms pp dpp ir years np) (hx : 0 < xtra) :
    ((ExtraMonthlyPrincipal.init (Mortgage.init pp dpp ir sd years np)
      xtra).get_amortization_table gate).length ≤ years * np ∧
    (∀ row ∈ (ExtraMonthlyPrincipal.init (Mortgage.init pp dpp ir sd years np)
      xtra).get_amortization_table gate, 0 ≤ row.end_balance) ∧
    (ExtraMonthlyPrincipal.init (Mortgage.init 1200 0 (1/25) 0 1 3)
      450).get_amortization_table.length = 2 ∧
    2 < (Mortgage.init 1200 0 (1/25) 0 1 3).get_number_of_payments ∧
    (((ExtraMonthlyPrincipal.init (Mortgage.init 1200 0 (1/25) 0 1 3)
        450).get_amortization_table).getD 1
      ⟨0, 0, 0, 0, 0, 0, 0, 0, 0, 0, false⟩).end_balance = 0 ∧
    (((ExtraMonthlyPrincipal.init (Mortgage.init 1200 0 (1/25) 0 1 3)
        450).get_amortization_table).getD 1
      ⟨0, 0, 0, 0, 0, 0, 0, 0, 0, 0, false⟩).is_payoff = true := by
  have hln := xtable_length_le_and_nonneg
    (ExtraMonthlyPrincipal.init (Mortgage.init pp dpp ir sd years np) xtra) gate
  exact ⟨hln.1, hln.2, tableC.1, by norm_num [Mortgage.get_number_of_payments,
    Mortgage.init], tableC.2.1, tableC.2.2⟩

/-- C4 witness: the amended theorem applied to the 1200/4%/1-year/3-payment
loan with extra 450. -/
theorem xtable_truncation_witness :
    ((ExtraMonthlyPrincipal.init (Mortgage.init 1200 0 (1/25) 0 1 3)
      450).get_amortization_table none).length ≤ 1 * 3 ∧
    (∀ row ∈ (ExtraMonthlyPrincipal.init (Mortgage.init 1200 0 (1/25) 0 1 3)
      450).get_amortization_table none, 0 ≤ row.end_balance) ∧
    (ExtraMonthlyPrincipal.init (Mortgage.init 1200 0 (1/25) 0 1 3)
      450).get_amortization_table.length = 2 ∧
    2 < (Mortgage.init 1200 0 (1/25) 0 1 3).get_number_of_payments ∧
    (((ExtraMonthlyPrincipal.init (Mortgage.init 1200 0 (1/25) 0 1 3)
        450).get_amortization_table).getD 1
      ⟨0, 0, 0, 0, 0, 0, 0, 0, 0, 0, false⟩).end_balance = 0 ∧
    (((ExtraMonthlyPrincipal.init (Mortgage.init 1200 0 (1/25) 0 1 3)
        450).get_amortization_table).getD 1
      ⟨0, 0, 0, 0, 0, 0, 0, 0, 0, 0, false⟩).is_payoff = true :=
  xtable_truncation 1200 0 (1/25) 0 1 3 450 none
    (by unfold ValidTerms; norm_num) (by norm_num)

theorem head_map_range {α : Type*} (f : ℕ → α) {n : ℕ} (hn : 0 < n) :
    ((List.range n).map f).head? = some (f 0) := by
  obtain ⟨m, rfl⟩ := Nat.exists_eq_succ_of_ne_zero hn.ne'
  rw [List.range_succ_eq_map]
  simp

theorem x_cumsum_head (a b : ℚ) (l : List XRow) :
    (x_cumsum a b l).head? = l.head?.map (fun r =>
      { r with cum_principal := a + r.principal_paid + r.extra,
               cum_interest := b + r.interest_paid }) := by
  cases l with
  | nil => rfl
  | cons r t => rfl

/-- When the returned extra-principal table is non-empty, its first row is the
rounded image of `x_first_row` with the cumulative columns seeded from it. -/
theorem xtable_head (e : ExtraMonthlyPrincipal) (gate : Option ℕ)
    (hr : 0 ≤ e.toMortgage.interest_rate) (hpv : 0 ≤ e.toMortgage.loan_amount)
    (hx : 0 ≤ e.extra_principal) {rx : XRow}
    (hmem : rx ∈ (e.get_amortization_table gate).head?) :
    rx = XRow.round2 { x_first_row e gate with
      cum_principal := 0 + (x_first_row e gate).principal_paid
        + (x_first_row e gate).extra,
      cum_interest := 0 + (x_first_row e gate).interest_paid } := by
  have hr0 : 0 ≤ e.toMortgage.interest_rate / (e.toMortgage.num_yearly_pmts : ℚ) :=
    div_nonneg hr (Nat.cast_nonneg _)
  have hpay : 0 ≤ e.toMortgage.get_payment := get_payment_nonneg _ hpv hr
  have hea : ∀ d, 0 ≤ gated_extra e.extra_principal gate d := by
    intro d
    unfold gated_extra
    rcases gate with - | g
    · exact hx
    · dsimp only
      split_ifs
      · exact le_refl 0
      · exact hx
  simp only [ExtraMonthlyPrincipal.get_amortization_table] at hmem
  split_ifs at hmem with h0
  · simp at hmem
  · have hchain : List.Chain' (fun x y : XRow => y.begin_balance = x.end_balance ∧
        (round2 x.end_balance < 0 → round2 y.end_balance < 0))
        (x_generated e gate) := by
      show List.Chain _ (x_first_row e gate) _
      exact x_loop_chain _ _ _ hr0 hpay hea _ _ _ _ _ rfl
    have hbool : List.Chain' (fun x y : XRow =>
        (decide (0 ≤ round2 x.end_balance)) = false →
        (decide (0 ≤ round2 y.end_balance)) = false) (x_generated e gate) :=
      hchain.imp (fun a b hab => by
        intro hfx
        rw [decide_eq_false_iff_not, not_le] at hfx ⊢
        exact hab.2 hfx)
    rw [filter_eq_takeWhile_of_chain _ _ hbool] at hmem
    have hxg : x_generated e gate = x_first_row e gate ::
        x_loop (e.toMortgage.interest_rate / e.toMortgage.num_yearly_pmts)
          e.toMortgage.get_payment (gated_extra e.extra_principal gate)
          (e.toMortgage.years * e.toMortgage.num_yearly_pmts - 1) 2
          (e.toMortgage.start_date + 1) (x_first_row e gate).end_balance := rfl
    rw [hxg, List.takeWhile_cons] at hmem
    cases hp : decide (0 ≤ round2 (x_first_row e gate).end_balance) with
    | false =>
      rw [hp, if_neg (by simp)] at hmem
      simp [x_cumsum] at hmem
    | true =>
      rw [hp, if_pos rfl, List.head?_map, x_cumsum_head] at hmem
      simp only [List.head?_cons, Option.map_some', Option.mem_def,
        Option.some.injEq] at hmem
      exact hmem.symm

/-- C5, counterexample: for the loan (price 900, rate 2%, 1 year, 3 payments),
the `ExtraMonthlyPrincipal` table with extra = 0 is not identical to the
standard table: both period-2 rows exist, but the standard stored ending
balance is 302.00 while the extra-principal one is 301.99 (its recurrence uses
the rounded payment and the payoff branch). -/
theorem extra_zero_not_identical_counterexample :
    (((Mortgage.init 900 0 (1/50) 0 1 3).get_amortization_table).getD 1
      ⟨0, 0, 0, 0, 0, 0, 0, 0, 0⟩).period = 2 ∧
    (((ExtraMonthlyPrincipal.init (Mortgage.init 900 0 (1/50) 0 1 3)
        0).get_amortization_table).getD 1
      ⟨0, 0, 0, 0, 0, 0, 0, 0, 0, 0, false⟩).period = 2 ∧
    (((Mortgage.init 900 0 (1/50) 0 1 3).get_amortization_table).getD 1
      ⟨0, 0, 0, 0, 0, 0, 0, 0, 0⟩).end_balance = 302 ∧
    (((ExtraMonthlyPrincipal.init (Mortgage.init 900 0 (1/50) 0 1 3)
        0).get_amortization_table).getD 1
      ⟨0, 0, 0, 0, 0, 0, 0, 0, 0, 0, false⟩).end_balance = 30199/100 ∧
    (((Mortgage.init 900 0 (1/50) 0 1 3).get_amortization_table).getD 1
        ⟨0, 0, 0, 0, 0, 0, 0, 0, 0⟩).end_balance ≠
      (((ExtraMonthlyPrincipal.init (Mortgage.init 900 0 (1/50) 0 1 3)
          0).get_amortization_table).getD 1
        ⟨0, 0, 0, 0, 0, 0, 0, 0, 0, 0, false⟩).end_balance ∧
    ((Mortgage.init 900 0 (1/50) 0 1 3).get_amortization_table).length =
      ((ExtraMonthlyPrincipal.init (Mortgage.init 900 0 (1/50) 0 1 3)
        0).get_amortization_table).length := by
  refine ⟨stdD.2, tableD.2.2, stdD.1, tableD.2.1, ?_, ?_⟩
  · rw [stdD.1, tableD.2.1]
    norm_num
  · rw [std_table_length, tableD.1]
    rfl

/-- C5 (amended): with extra = 0 the `ExtraMonthlyPrincipal` table agrees with
the standard table in its first period on every shared column, but it is not
bit-identical in general: from period 2 on the recurrence uses the rounded
payment and a payoff branch, producing one-cent differences (302.00 vs 301.99
in period 2 of the 900/2%/3-period loan) even though both tables have the same
length there. -/
theorem extra_zero_first_period_agreement (pp dpp ir : ℚ) (sd years np : ℕ)
    (h : ValidTerms pp dpp ir years np) :
    (∀ rs ∈ ((Mortgage.init pp dpp ir sd years np).get_amortization_table).head?,
     ∀ rx ∈ ((ExtraMonthlyPrincipal.init (Mortgage.init pp dpp ir sd years np)
        0).get_amortization_table).head?,
      rs.payment_date = rx.payment_date ∧ rs.payment = rx.payment ∧
      rs.principal_paid = rx.principal_paid ∧
      rs.interest_paid = rx.interest_paid ∧
      rs.begin_balance = rx.begin_balance ∧ rs.end_balance = rx.end_balance ∧
      rs.cum_principal = rx.cum_principal ∧ rs.cum_interest = rx.cum_interest) ∧
    ((Mortgage.init 900 0 (1/50) 0 1 3).get_amortization_table).length =
      ((ExtraMonthlyPrincipal.init (Mortgage.init 900 0 (1/50) 0 1 3)
        0).get_amortization_table).length ∧
    (((Mortgage.init 900 0 (1/50) 0 1 3).get_amortization_table).getD 1
        ⟨0, 0, 0, 0, 0, 0, 0, 0, 0⟩).end_balance -
      (((ExtraMonthlyPrincipal.init (Mortgage.init 900 0 (1/50) 0 1 3)
          0).get_amortization_table).getD 1
        ⟨0, 0, 0, 0, 0, 0, 0, 0, 0, 0, false⟩).end_balance = 1/100 := by
  obtain ⟨hpp, hd0, hd1, hir, hy, hnp⟩ := h
  have hN : 0 < years * np := Nat.mul_pos hy hnp
  refine ⟨?_, ?_, ?_⟩
  · intro rs hs rx hx
    have hshead : ((Mortgage.init pp dpp ir sd years np).get_amortization_table).head?
        = some (SRow.round2
          { period := 1,
            payment_date := (Mortgage.init pp dpp ir sd years np).start_date + 0,
            payment := (Mortgage.init pp dpp ir sd years np).get_payment,
            principal_paid := princ_std (ir / np) (years * np) (pp - pp * dpp) 1,
            interest_paid := int_std (ir / np) (years * np) (pp - pp * dpp) 1,
            begin_balance := eb_std (ir / np) (years * np) (pp - pp * dpp) 0,
            end_balance := eb_std (ir / np) (years * np) (pp - pp * dpp) 1,
            cum_principal := cum_princ_std (ir / np) (years * np) (pp - pp * dpp) 1,
            cum_interest := cum_int_std (ir / np) (years * np) (pp - pp * dpp) 1 }) := by
      simp only [Mortgage.get_amortization_table]
      rw [head_map_range _ (by
        show 0 < (Mortgage.init pp dpp ir sd years np).years
          * (Mortgage.init pp dpp ir sd years np).num_yearly_pmts
        simpa [Mortgage.init] using hN)]
      rfl
    rw [hshead, Option.mem_def, Option.some.injEq] at hs
    have hrx := xtable_head (ExtraMonthlyPrincipal.init
        (Mortgage.init pp dpp ir sd years np) 0) none
      (by exact hir) (by show (0:ℚ) ≤ pp - pp * dpp; nlinarith) (le_refl 0) hx
    subst hs hrx
    refine ⟨?_, ?_, ?_, ?_, ?_, ?_, ?_, ?_⟩ <;>
      simp only [SRow.round2, XRow.round2, x_first_row, emp_init_toMortgage,
        emp_init_extra, init_interest_rate, init_num_yearly_pmts, init_years,
        init_start_date, init_loan_amount, gated_extra, eb_std, cum_princ_std,
        cum_int_std, princ_std, int_std, Finset.sum_range_one] <;>
      norm_num
  · rw [std_table_length, tableD.1]
    rfl
  · rw [stdD.1, tableD.2.1]
    norm_num

/-- C5 witness: the amended theorem applied to the 900/2%/1-year/3-payment
loan. -/
theorem extra_zero_first_period_agreement_witness :
    (∀ rs ∈ ((Mortgage.init 900 0 (1/50) 0 1 3).get_amortization_table).head?,
     ∀ rx ∈ ((ExtraMonthlyPrincipal.init (Mortgage.init 900 0 (1/50) 0 1 3)
        0).get_amortization_table).head?,
      rs.payment_date = rx.payment_date ∧ rs.payment = rx.payment ∧
      rs.principal_paid = rx.principal_paid ∧
      rs.interest_paid = rx.interest_paid ∧
      rs.begin_balance = rx.begin_balance ∧ rs.end_balance = rx.end_balance ∧
      rs.cum_principal = rx.cum_principal ∧ rs.cum_interest = rx.cum_interest) ∧
    ((Mortgage.init 900 0 (1/50) 0 1 3).get_amortization_table).length =
      ((ExtraMonthlyPrincipal.init (Mortgage.init 900 0 (1/50) 0 1 3)
        0).get_amortization_table).length ∧
    (((Mortgage.init 900 0 (1/50) 0 1 3).get_amortization_table).getD 1
        ⟨0, 0, 0, 0, 0, 0, 0, 0, 0⟩).end_balance -
      (((ExtraMonthlyPrincipal.init (Mortgage.init 900 0 (1/50) 0 1 3)
          0).get_amortization_table).getD 1
        ⟨0, 0, 0, 0, 0, 0, 0, 0, 0, 0, false⟩).end_balance = 1/100 :=
  extra_zero_first_period_agreement 900 0 (1/50) 0 1 3
    (by unfold ValidTerms; norm_num)

theorem row1C0 : x_first_row (ExtraMonthlyPrincipal.init
    (Mortgage.init 1200 0 (1/25) 0 1 3) 450) (some 0) =
    { period := 1, payment_date := 0, payment := 41071/100,
      principal_paid := 6750000/17101, interest_paid := 16, extra := 450,
      begin_balance := 1200, end_balance := 6075750/17101,
      cum_principal := 0, cum_interest := 0, is_payoff := false } := by
  simp only [x_first_row, emp_init_toMortgage, emp_init_extra,
    init_interest_rate, init_num_yearly_pmts, init_years, init_start_date,
    init_loan_amount]
  rw [payB]
  norm_num [XRow.mk.injEq, princ_std, int_std, npf_ppmt, npf_ipmt, npf_fv,
    npf_pmt, gated_extra]

theorem genC0 : x_generated (ExtraMonthlyPrincipal.init
    (Mortgage.init 1200 0 (1/25) 0 1 3) 450) (some 0) =
    [{ period := 1, payment_date := 0, payment := 41071/100,
       principal_paid := 6750000/17101, interest_paid := 16, extra := 450,
       begin_balance := 1200, end_balance := 6075750/17101,
       cum_principal := 0, cum_interest := 0, is_payoff := false },
     { period := 2, payment_date := 1, payment := 6156760/17101,
       principal_paid := 6075750/17101, interest_paid := 81010/17101,
       extra := 0, begin_balance := 6075750/17101, end_balance := 0,
       cum_principal := 0, cum_interest := 0, is_payoff := true }] := by
  simp only [x_generated, emp_init_toMortgage, emp_init_extra,
    init_interest_rate, init_num_yearly_pmts, init_years, init_start_date]
  rw [payB, row1C0]
  norm_num
  rw [x_loop_payoff_break _ _ _ _ _ _ _
    ⟨round2_pos_of_le (by norm_num), by norm_num⟩]
  norm_num [XRow.mk.injEq]

theorem tableC0 : (ExtraMonthlyPrincipal.init
    (Mortgage.init 1200 0 (1/25) 0 1 3) 450).get_amortization_table (some 0)
    = (x_cumsum 0 0
        [{ period := 1, payment_date := 0, payment := 41071/100,
           principal_paid := 6750000/17101, interest_paid := 16, extra := 450,
           begin_balance := 1200, end_balance := 6075750/17101,
           cum_principal := 0, cum_interest := 0, is_payoff := false },
         { period := 2, payment_date := 1, payment := 6156760/17101,
           principal_paid := 6075750/17101, interest_paid := 81010/17101,
           extra := 0, begin_balance := 6075750/17101, end_balance := 0,
           cum_principal := 0, cum_interest := 0,
           is_payoff := true }]).map XRow.round2 := by
  simp only [ExtraMonthlyPrincipal.get_amortization_table, emp_init_toMortgage,
    init_years, init_num_yearly_pmts]
  rw [if_neg (by norm_num)]
  rw [genC0]
  rw [filter_keep _ _ _ (by
    show decide ((0:ℚ) ≤ round2 ((6075750:ℚ)/17101)) = true
    exact decide_eq_true (le_of_lt (round2_pos_of_le (by norm_num))))]
  rw [filter_keep _ _ _ (by
    show decide ((0:ℚ) ≤ round2 (0:ℚ)) = true
    exact decide_eq_true (by rw [round2_zero]))]
  rw [List.filter_nil]

/-- C6 witness: the gating theorem applied to the first retained row of the
1200/4%/3-payment loan with extra 450 gated from month 0: the hypothesis, the
row membership, and both gating conclusions at that concrete row. -/
theorem extra_principal_start_date_gating_witness :
    round2 ((ExtraMonthlyPrincipal.init (Mortgage.init 1200 0 (1/25) 0 1 3)
        450).extra_principal) = (ExtraMonthlyPrincipal.init
        (Mortgage.init 1200 0 (1/25) 0 1 3) 450).extra_principal ∧
    (((ExtraMonthlyPrincipal.init (Mortgage.init 1200 0 (1/25) 0 1 3)
        450).get_amortization_table (some 0)).getD 0
      ⟨0, 0, 0, 0, 0, 0, 0, 0, 0, 0, false⟩)
      ∈ (ExtraMonthlyPrincipal.init (Mortgage.init 1200 0 (1/25) 0 1 3)
        450).get_amortization_table (some 0) ∧
    ((((ExtraMonthlyPrincipal.init (Mortgage.init 1200 0 (1/25) 0 1 3)
        450).get_amortization_table (some 0)).getD 0
      ⟨0, 0, 0, 0, 0, 0, 0, 0, 0, 0, false⟩).payment_date < 0 →
      ((((ExtraMonthlyPrincipal.init (Mortgage.init 1200 0 (1/25) 0 1 3)
        450).get_amortization_table (some 0)).getD 0
      ⟨0, 0, 0, 0, 0, 0, 0, 0, 0, 0, false⟩)).extra = 0) ∧
    (¬ (((ExtraMonthlyPrincipal.init (Mortgage.init 1200 0 (1/25) 0 1 3)
        450).get_amortization_table (some 0)).getD 0
      ⟨0, 0, 0, 0, 0, 0, 0, 0, 0, 0, false⟩).payment_date < 0 →
      (((ExtraMonthlyPrincipal.init (Mortgage.init 1200 0 (1/25) 0 1 3)
        450).get_amortization_table (some 0)).getD 0
      ⟨0, 0, 0, 0, 0, 0, 0, 0, 0, 0, false⟩).is_payoff = false →
      ((((ExtraMonthlyPrincipal.init (Mortgage.init 1200 0 (1/25) 0 1 3)
        450).get_amortization_table (some 0)).getD 0
      ⟨0, 0, 0, 0, 0, 0, 0, 0, 0, 0, false⟩)).extra
        = (ExtraMonthlyPrincipal.init (Mortgage.init 1200 0 (1/25) 0 1 3)
          450).extra_principal) := by
  have hcent : round2 ((ExtraMonthlyPrincipal.init
      (Mortgage.init 1200 0 (1/25) 0 1 3) 450).extra_principal)
      = (ExtraMonthlyPrincipal.init (Mortgage.init 1200 0 (1/25) 0 1 3)
        450).extra_principal := by
    show round2 (450 : ℚ) = (450 : ℚ)
    rw [round2_eq_of_bounds _ 45000 (by norm_num) (by norm_num)]
    norm_num
  have hmem : (((ExtraMonthlyPrincipal.init (Mortgage.init 1200 0 (1/25) 0 1 3)
      450).get_amortization_table (some 0)).getD 0
      ⟨0, 0, 0, 0, 0, 0, 0, 0, 0, 0, false⟩)
      ∈ (ExtraMonthlyPrincipal.init (Mortgage.init 1200 0 (1/25) 0 1 3)
        450).get_amortization_table (some 0) := by
    rw [tableC0]
    simp only [x_cumsum, List.map_cons, List.map_nil, List.getD]
    exact List.mem_cons_self _ _
  have h := extra_principal_start_date_gating
    (ExtraMonthlyPrincipal.init (Mortgage.init 1200 0 (1/25) 0 1 3) 450) 0
    hcent _ hmem
  exact ⟨hcent, hmem, h.1, h.2⟩

end Cuffnote
